import Mathlib

/-!
# Verification of the AI-Index-Analyser technical-analysis core

A shallow embedding, in Lean 4, of the parts of the repository that the
frozen claims C1..C10 are about:

* `analysis.py` — `TechnicalAnalysis.calculate_fibonacci_levels`,
  `identify_support_resistance`, `calculate_trend_strength`,
  `calculate_probabilities`, `get_market_sentiment`,
  `calculate_all_indicators` (guard only, the per-indicator library calls
  into the external `ta` package are abstracted),
* `candlestick_patterns.py` — `CandlestickPatterns.detect_all_patterns`
  and the `recent_patterns` field of `get_pattern_statistics`,
* `main.py` / `advanced_charts.py` — the per-index primary-pattern
  selection (`reliability_order` stable sort),
* `llm_client.py` — `LLMClient._prepare_data_for_json`.

Embedding conventions:
* Python machine floats are modelled as `ℚ`; where the code explicitly
  tests `pd.notna`, cells are `Option ℚ` with `none` standing for NaN.
* Python `dict.get` returning `None`, and possibly-absent DataFrame
  columns, are `Option`s.
* Python truthiness of a number (`if x:`) is `x ≠ 0` on present values.
* Code that can raise (`ZeroDivisionError` from `/`, `NameError` from an
  unbound local) is modelled with `Except PyErr`.
* Python's stable `list.sort` is modelled by a stable insertion sort;
  pandas' centered rolling windows follow the `FixedWindowIndexer`
  bounds (`offset = (window-1)//2`, `min_periods = window`).
-/

set_option maxRecDepth 100000
set_option maxHeartbeats 1000000

/-- Errors a modelled Python function can raise. -/
inductive PyErr where
  | zeroDiv
  | nameErr
  deriving DecidableEq, Repr

/-! ## Generic list utilities (models of Python built-ins) -/

/-- One insertion step of a stable insertion sort: `le x y = true` means
`x` may be placed before `y`.  With a reflexive total `le` this models
the placement Python's stable `sort` gives the earliest-inserted
element. -/
def insertLe {α : Type} (le : α → α → Bool) (x : α) : List α → List α
  | [] => [x]
  | y :: ys => if le x y then x :: y :: ys else y :: insertLe le x ys

/-- Stable sort (model of Python's `sorted`/`list.sort`, which is a
stable sort): elements are inserted back-to-front, so an earlier element
ends up before any equal element. -/
def sortByLe {α : Type} (le : α → α → Bool) : List α → List α
  | [] => []
  | x :: xs => insertLe le x (sortByLe le xs)

/-- Model of `pandas.Series.unique`: distinct values in order of first
appearance. -/
def uniqueFirst : List ℚ → List ℚ :=
  go []
where
  go (seen : List ℚ) : List ℚ → List ℚ
    | [] => []
    | x :: xs => if x ∈ seen then go seen xs else x :: go (x :: seen) xs

/-- Model of Python's `round` to an integer: round half to even on exact
rationals. -/
def pyRoundInt (q : ℚ) : ℤ :=
  let f : ℤ := ⌊q⌋
  let r : ℚ := q - f
  if r < 1/2 then f
  else if 1/2 < r then f + 1
  else if f % 2 = 0 then f else f + 1

/-- Model of Python's `round(x, 2)`. -/
def pyRound2 (q : ℚ) : ℚ := (pyRoundInt (q * 100) : ℚ) / 100

theorem length_insertLe {α : Type} (le : α → α → Bool) (x : α) (l : List α) :
    (insertLe le x l).length = l.length + 1 := by
  induction l with
  | nil => rfl
  | cons y ys ih =>
    simp only [insertLe]
    split
    · simp
    · simp [ih]

theorem mem_insertLe {α : Type} {le : α → α → Bool} {x a : α} {l : List α} :
    a ∈ insertLe le x l ↔ a = x ∨ a ∈ l := by
  induction l with
  | nil => simp [insertLe]
  | cons y ys ih =>
    simp only [insertLe]
    split
    · constructor
      · intro h
        rcases List.mem_cons.mp h with h | h
        · exact Or.inl h
        · exact Or.inr h
      · intro h
        rcases h with h | h
        · exact List.mem_cons.mpr (Or.inl h)
        · exact List.mem_cons.mpr (Or.inr h)
    · rw [List.mem_cons, ih, List.mem_cons]
      tauto

theorem mem_sortByLe {α : Type} {le : α → α → Bool} {a : α} {l : List α} :
    a ∈ sortByLe le l ↔ a ∈ l := by
  induction l with
  | nil => simp [sortByLe]
  | cons x xs ih =>
    simp only [sortByLe]
    rw [mem_insertLe, ih, List.mem_cons]

theorem pyRoundInt_abs_sub_le (q : ℚ) : |(pyRoundInt q : ℚ) - q| ≤ 1/2 := by
  have hfl : (⌊q⌋ : ℚ) ≤ q := Int.floor_le q
  have hfu : q < (⌊q⌋ : ℚ) + 1 := Int.lt_floor_add_one q
  show |((if q - ⌊q⌋ < 1/2 then (⌊q⌋:ℤ)
         else if 1/2 < q - ⌊q⌋ then ⌊q⌋ + 1
         else if ⌊q⌋ % 2 = 0 then ⌊q⌋ else ⌊q⌋ + 1 : ℤ) : ℚ) - q| ≤ 1/2
  split
  · rw [abs_le]; constructor <;> linarith
  · split
    · push_cast
      rw [abs_le]; constructor <;> linarith
    · split
      · rw [abs_le]
        constructor <;> linarith
      · push_cast
        rw [abs_le]; constructor <;> linarith

theorem pyRound2_abs_sub_le (q : ℚ) : |pyRound2 q - q| ≤ 1/200 := by
  have h := pyRoundInt_abs_sub_le (q * 100)
  unfold pyRound2
  have h100 : (0:ℚ) < 100 := by norm_num
  rw [abs_le] at h ⊢
  constructor
  · have := h.1
    rw [div_sub' _ _ _ (ne_of_gt h100), le_div_iff₀ h100]
    linarith
  · have := h.2
    rw [div_sub' _ _ _ (ne_of_gt h100), div_le_iff₀ h100]
    linarith

/-! ## Data model: OHLCV bars and configuration (`config.py`) -/

/-- One OHLCV bar (a row of the yfinance DataFrame).  Timestamps are not
read by any of the functions under verification and are omitted. -/
structure Candle where
  op : ℚ
  hi : ℚ
  lo : ℚ
  cl : ℚ
  vol : ℚ
  deriving DecidableEq, Repr

/-- `config.FIBONACCI_LEVELS` (config.py:48). -/
def FIBONACCI_LEVELS : List ℚ :=
  [0, 236/1000, 382/1000, 1/2, 618/1000, 786/1000, 1, 1618/1000, 2618/1000]

/-- The extension-ratio list hard-coded in `calculate_fibonacci_levels`
(analysis.py:253). -/
def extensionRatios : List ℚ := [1272/1000, 1414/1000, 1618/1000, 2, 2618/1000]

/-- `pandas.Series.max` over a non-empty column (`[]` never occurs at the
call sites, which guard against empty data first). -/
def seriesMax : List ℚ → ℚ
  | [] => 0
  | x :: xs => xs.foldl max x

/-- `pandas.Series.min`. -/
def seriesMin : List ℚ → ℚ
  | [] => 0
  | x :: xs => xs.foldl min x

theorem le_foldl_max (xs : List ℚ) (a : ℚ) : a ≤ xs.foldl max a := by
  induction xs generalizing a with
  | nil => exact le_refl a
  | cons y ys ih => exact le_trans (le_max_left a y) (ih (max a y))

theorem mem_le_foldl_max {x : ℚ} (xs : List ℚ) (a : ℚ) (hx : x ∈ xs) :
    x ≤ xs.foldl max a := by
  induction xs generalizing a with
  | nil => cases hx
  | cons y ys ih =>
    rcases List.mem_cons.mp hx with h | h
    · subst h
      exact le_trans (le_max_right a x) (le_foldl_max ys (max a x))
    · exact ih (max a y) h

theorem le_seriesMax {x : ℚ} {l : List ℚ} (hx : x ∈ l) : x ≤ seriesMax l := by
  cases l with
  | nil => cases hx
  | cons y ys =>
    rcases List.mem_cons.mp hx with h | h
    · subst h; exact le_foldl_max ys x
    · exact mem_le_foldl_max ys y h

theorem foldl_min_le (xs : List ℚ) (a : ℚ) : xs.foldl min a ≤ a := by
  induction xs generalizing a with
  | nil => exact le_refl a
  | cons y ys ih => exact le_trans (ih (min a y)) (min_le_left a y)

theorem foldl_min_le_mem {x : ℚ} (xs : List ℚ) (a : ℚ) (hx : x ∈ xs) :
    xs.foldl min a ≤ x := by
  induction xs generalizing a with
  | nil => cases hx
  | cons y ys ih =>
    rcases List.mem_cons.mp hx with h | h
    · subst h
      exact le_trans (foldl_min_le ys (min a x)) (min_le_right a x)
    · exact ih (min a y) h

theorem seriesMin_le {x : ℚ} {l : List ℚ} (hx : x ∈ l) : seriesMin l ≤ x := by
  cases l with
  | nil => cases hx
  | cons y ys =>
    rcases List.mem_cons.mp hx with h | h
    · subst h; exact foldl_min_le ys x
    · exact foldl_min_le_mem ys y h

/-! ## LevelDetector: `calculate_fibonacci_levels` (analysis.py:234-263) -/

/-- The `self.fibonacci_levels` dict.  The retracement / extension dicts
are keyed here by the ratio itself; the Python keys are the
percent-formatted strings of the same ratios. -/
structure FibLevels where
  hi : ℚ
  lo : ℚ
  retracement : List (ℚ × ℚ)
  extension : List (ℚ × ℚ)
  deriving DecidableEq, Repr

/-- `TechnicalAnalysis.calculate_fibonacci_levels`: retracements at the
configured ratios as `high - diff*level`, extensions at the hard-coded
ratios as `high + diff*(level-1)`; `None` on missing/empty data. -/
def calculate_fibonacci_levels (data : Option (List Candle)) : Option FibLevels :=
  match data with
  | none => none
  | some d =>
    if d = [] then none
    else
      let high := seriesMax (d.map Candle.hi)
      let low := seriesMin (d.map Candle.lo)
      let diff := high - low
      some ⟨high, low,
        FIBONACCI_LEVELS.map (fun level => (level, high - diff * level)),
        extensionRatios.map (fun level => (level, high + diff * (level - 1)))⟩

/-! ## LevelDetector: `identify_support_resistance` (analysis.py:265-296) -/

/-- The `self.support_resistance` dict. -/
structure SRLevels where
  support : List ℚ
  resistance : List ℚ
  current_price : ℚ
  deriving DecidableEq, Repr

/-- Pandas centered rolling window (`FixedWindowIndexer` with
`min_periods = window`, the defaults used by the code): at row `i` the
window covers rows `[i+1+off-w, i+off]` with `off = (w-1)/2`; `none`
(NaN) when the full window does not fit. -/
def rollingWindow (w : ℕ) (xs : List ℚ) (i : ℕ) : Option (List ℚ) :=
  let off := (w - 1) / 2
  if 0 < w ∧ w ≤ i + 1 + off ∧ i + off < xs.length then
    some ((xs.drop (i + 1 + off - w)).take w)
  else none

/-- `df['Low'].rolling(window, center=True).min()` at row `i`. -/
def rollingMin (w : ℕ) (xs : List ℚ) (i : ℕ) : Option ℚ :=
  (rollingWindow w xs i).map seriesMin

/-- `df['High'].rolling(window, center=True).max()` at row `i`. -/
def rollingMax (w : ℕ) (xs : List ℚ) (i : ℕ) : Option ℚ :=
  (rollingWindow w xs i).map seriesMax

/-- Python `sorted(l)[-k:]` (ascending sort, keep the last `k`; slice
`[-0:]` is the whole list). -/
def pyLastK (k : ℕ) (l : List ℚ) : List ℚ :=
  let s := sortByLe (fun a b => decide (a ≤ b)) l
  if k = 0 then s else s.drop (s.length - k)

/-- `TechnicalAnalysis.identify_support_resistance`: rows whose Low/High
equals the centered rolling min/max are collected (`unique()` keeps first
appearances), filtered strictly below/above the last close, and then at
most `num_levels` are kept (the closest from below / from above). -/
def identify_support_resistance (data : Option (List Candle))
    (window num_levels : ℕ) : Option SRLevels :=
  match data with
  | none => none
  | some d =>
    if d = [] then none
    else
      let lows := d.map Candle.lo
      let highs := d.map Candle.hi
      let current_price := (d.map Candle.cl).getLastD 0
      let all_support := uniqueFirst (((List.range d.length).filter
        (fun i => rollingMin window lows i = some (lows.getD i 0))).map
          (fun i => lows.getD i 0))
      let support_levels := all_support.filter (fun level => level < current_price)
      let support_final := if support_levels.length > num_levels
        then pyLastK num_levels support_levels else support_levels
      let all_resistance := uniqueFirst (((List.range d.length).filter
        (fun i => rollingMax window highs i = some (highs.getD i 0))).map
          (fun i => highs.getD i 0))
      let resistance_levels := all_resistance.filter (fun level => level > current_price)
      let resistance_final := if resistance_levels.length > num_levels
        then (sortByLe (fun a b => decide (a ≤ b)) resistance_levels).take num_levels
        else resistance_levels
      some ⟨support_final, resistance_final, current_price⟩

theorem mem_pyLastK {k : ℕ} {l : List ℚ} {a : ℚ} (h : a ∈ pyLastK k l) : a ∈ l := by
  unfold pyLastK at h
  split at h
  · exact mem_sortByLe.mp h
  · exact mem_sortByLe.mp (List.mem_of_mem_drop h)

/-- C1: every support level returned by `identify_support_resistance` is
strictly below the current price (the last close), and every resistance
level strictly above it, for every non-empty OHLCV series (any window /
level-count arguments). -/
theorem c1_support_below_resistance_above
    (data : List Candle) (window num_levels : ℕ) (r : SRLevels)
    (hne : data ≠ [])
    (h : identify_support_resistance (some data) window num_levels = some r) :
    r.current_price = (data.map Candle.cl).getLastD 0 ∧
    (∀ s ∈ r.support, s < r.current_price) ∧
    (∀ x ∈ r.resistance, x > r.current_price) := by
  simp only [identify_support_resistance, if_neg hne, Option.some.injEq] at h
  subst h
  refine ⟨rfl, ?_, ?_⟩
  · intro s hs
    simp only at hs
    split at hs
    · exact of_decide_eq_true (List.mem_filter.mp (mem_pyLastK hs)).2
    · exact of_decide_eq_true (List.mem_filter.mp hs).2
  · intro x hx
    simp only at hx
    split at hx
    · exact of_decide_eq_true (List.mem_filter.mp (mem_sortByLe.mp (List.mem_of_mem_take hx))).2
    · exact of_decide_eq_true (List.mem_filter.mp hx).2

/-- C1 witness: a two-bar series with a tiny window; the single support
candidate 1 and 2 sit below the last close 4, the resistance candidate 5
above it. -/
theorem c1_witness :
    ([⟨1, 3, 1, 2, 1⟩, ⟨1, 5, 2, 4, 1⟩] : List Candle) ≠ [] ∧
    ((⟨[1, 2], [5], 4⟩ : SRLevels).current_price
        = (([⟨1, 3, 1, 2, 1⟩, ⟨1, 5, 2, 4, 1⟩] : List Candle).map Candle.cl).getLastD 0 ∧
      (∀ s ∈ (⟨[1, 2], [5], 4⟩ : SRLevels).support, s < (⟨[1, 2], [5], 4⟩ : SRLevels).current_price) ∧
      (∀ x ∈ (⟨[1, 2], [5], 4⟩ : SRLevels).resistance, x > (⟨[1, 2], [5], 4⟩ : SRLevels).current_price)) :=
  ⟨by decide, c1_support_below_resistance_above
    [⟨1, 3, 1, 2, 1⟩, ⟨1, 5, 2, 4, 1⟩] 1 5 ⟨[1, 2], [5], 4⟩ (by decide) (by decide)⟩

/-- C7 counterexample: on a single bar with High 2, Low 1, the
retracement level computed for the configured ratio 1.618 (>1) is
0.382, which lies below the high, not above it — extension levels come
from the separate hard-coded list, not from the configured ratios >1. -/
theorem c7_counterexample :
    ∃ f, calculate_fibonacci_levels (some [⟨1, 2, 1, 1, 1⟩]) = some f ∧
      ((1618/1000 : ℚ) ∈ FIBONACCI_LEVELS ∧ (1 : ℚ) < 1618/1000) ∧
      ((1618/1000 : ℚ), (382/1000 : ℚ)) ∈ f.retracement ∧
      ¬ (382/1000 : ℚ) > f.hi := by
  refine ⟨_, rfl, ⟨by with_unfolding_all decide, by norm_num⟩,
    by with_unfolding_all decide, by with_unfolding_all decide⟩

/-- C7 amended: each retracement level for a configured ratio is
`high - range*ratio`; the extension levels (for the hard-coded ratios
1.272..2.618, all >1) are `high + range*(ratio-1)` and lie at or above
the high — strictly above whenever the range is non-degenerate. -/
theorem c7_fibonacci_levels
    (data : List Candle) (f : FibLevels)
    (hne : data ≠ []) (hvalid : ∀ c ∈ data, c.lo ≤ c.hi)
    (h : calculate_fibonacci_levels (some data) = some f) :
    (∀ p ∈ f.retracement, p.2 = f.hi - (f.hi - f.lo) * p.1) ∧
    (∀ p ∈ f.extension, (1 : ℚ) < p.1 ∧ p.2 = f.hi + (f.hi - f.lo) * (p.1 - 1) ∧ f.hi ≤ p.2) ∧
    (f.lo < f.hi → ∀ p ∈ f.extension, f.hi < p.2) := by
  simp only [calculate_fibonacci_levels, if_neg hne, Option.some.injEq] at h
  subst h
  have hlohi : seriesMin (data.map Candle.lo) ≤ seriesMax (data.map Candle.hi) := by
    rcases List.exists_mem_of_ne_nil data hne with ⟨c, hc⟩
    calc seriesMin (data.map Candle.lo) ≤ c.lo :=
          seriesMin_le (List.mem_map_of_mem Candle.lo hc)
      _ ≤ c.hi := hvalid c hc
      _ ≤ seriesMax (data.map Candle.hi) :=
          le_seriesMax (List.mem_map_of_mem Candle.hi hc)
  refine ⟨?_, ?_, ?_⟩
  · intro p hp
    simp only [List.mem_map] at hp
    obtain ⟨level, _, rfl⟩ := hp
    rfl
  · intro p hp
    simp only [List.mem_map] at hp
    obtain ⟨level, hlevel, rfl⟩ := hp
    have h1 : (1 : ℚ) < level := by
      fin_cases hlevel <;> norm_num
    refine ⟨h1, rfl, ?_⟩
    have : (0:ℚ) ≤ (seriesMax (data.map Candle.hi) - seriesMin (data.map Candle.lo)) * (level - 1) := by
      apply mul_nonneg <;> linarith
    simp only
    linarith
  · intro hlt p hp
    simp only [List.mem_map] at hp
    obtain ⟨level, hlevel, rfl⟩ := hp
    have h1 : (1 : ℚ) < level := by
      fin_cases hlevel <;> norm_num
    have : (0:ℚ) < (seriesMax (data.map Candle.hi) - seriesMin (data.map Candle.lo)) * (level - 1) := by
      apply mul_pos <;> linarith
    simp only
    linarith

/-- C7 witness: a two-bar series with High 2, Low 1. -/
theorem c7_witness :
    ∃ f, calculate_fibonacci_levels (some [⟨1, 2, 1, 2, 1⟩]) = some f ∧
      (∀ p ∈ f.retracement, p.2 = f.hi - (f.hi - f.lo) * p.1) ∧
      (f.lo < f.hi → ∀ p ∈ f.extension, f.hi < p.2) := by
  refine ⟨_, rfl, ?_, ?_⟩
  · exact (c7_fibonacci_levels [⟨1, 2, 1, 2, 1⟩] _ (by decide) (by decide) rfl).1
  · exact (c7_fibonacci_levels [⟨1, 2, 1, 2, 1⟩] _ (by decide) (by decide) rfl).2.2

/-- C8: with absent (`None`) or empty input data, `calculate_all_indicators`
(defined below by its guard, the indicator attachment abstracted as `body`),
`calculate_fibonacci_levels` and `identify_support_resistance` all return
`None`; being total Lean functions, they raise no exception. -/
def calculate_all_indicators {α : Type} (body : List Candle → α)
    (data : Option (List Candle)) : Option α :=
  match data with
  | none => none
  | some d => if d = [] then none else some (body d)

theorem c8_empty_input_yields_none :
    (∀ (α : Type) (body : List Candle → α),
      calculate_all_indicators body none = none ∧
      calculate_all_indicators body (some []) = none) ∧
    (calculate_fibonacci_levels none = none ∧
      calculate_fibonacci_levels (some []) = none) ∧
    (∀ window num_levels,
      identify_support_resistance none window num_levels = none ∧
      identify_support_resistance (some []) window num_levels = none) :=
  ⟨fun _ _ => ⟨rfl, rfl⟩, ⟨rfl, rfl⟩, fun _ _ => ⟨rfl, rfl⟩⟩

/-! ## ScoreAggregator: the `self.indicators` / `self.data` state -/

/-- The `self.indicators['MACD']` dict.  `none` fields model `None`
values (NaN snapshots are also reported as numbers; the warm-up NaN case
is covered by `none` where the code checks explicitly). -/
structure MACDInd where
  macd : Option ℚ
  signal : Option ℚ
  histogram : Option ℚ
  deriving DecidableEq, Repr

/-- The `self.indicators['ADX']` dict. -/
structure ADXInd where
  adx : Option ℚ
  di_plus : Option ℚ
  di_minus : Option ℚ
  deriving DecidableEq, Repr

/-- The `self.indicators['Bollinger']` dict. -/
structure BollInd where
  upper : Option ℚ
  middle : Option ℚ
  lower : Option ℚ
  width : Option ℚ
  percent : Option ℚ
  deriving DecidableEq, Repr

/-- The `self.indicators['Stochastic']` dict. -/
structure StochInd where
  K : Option ℚ
  D : Option ℚ
  deriving DecidableEq, Repr

/-- The `self.indicators` dict: `none` = key absent or value `None`
(both falsy under `.get`); `otherKeys` records whether keys not read by
the scoring functions (Pivots, ATR, moving_averages, …) are present, so
dict emptiness is represented faithfully. -/
structure Indicators where
  RSI : Option ℚ
  MACD : Option MACDInd
  ADX : Option ADXInd
  Bollinger : Option BollInd
  Stochastic : Option StochInd
  MFI : Option ℚ
  OBV : Option ℚ
  otherKeys : Bool
  deriving DecidableEq, Repr

/-- `not self.indicators` — the dict is empty. -/
def Indicators.isEmpty (ind : Indicators) : Bool :=
  !ind.otherKeys && ind.RSI.isNone && ind.MACD.isNone && ind.ADX.isNone &&
    ind.Bollinger.isNone && ind.Stochastic.isNone && ind.MFI.isNone && ind.OBV.isNone

/-- The columns of `self.data` read by the scoring functions: `Close`
(raw price data, NaN-free), the EMA columns and the OBV column.  An
absent column is `none`; an individual NaN cell is a `none` entry. -/
structure IndicatorFrame where
  close : List ℚ
  ema9 : Option (List (Option ℚ))
  ema21 : Option (List (Option ℚ))
  ema50 : Option (List (Option ℚ))
  ema200 : Option (List (Option ℚ))
  obvCol : Option (List (Option ℚ))
  deriving DecidableEq, Repr

/-- The `TechnicalAnalysis` state read by the scoring functions. -/
structure TAState where
  indicators : Indicators
  data : Option IndicatorFrame
  deriving DecidableEq, Repr

/-- Python truthiness of an optional number (`None` and `0.0` are falsy). -/
def truthy (x : Option ℚ) : Bool :=
  match x with
  | none => false
  | some q => q != 0

/-- `column.iloc[-1]`. -/
def lastCell (col : List (Option ℚ)) : Option ℚ := col.getLastD none

/-! ## ScoreAggregator: `calculate_trend_strength` (analysis.py:298-419) -/

/-- Running `(trend_score, total_weight, reasons)` state.  The reason
strings keep the Python texts with interpolated numbers elided. -/
structure TrendAcc where
  score : ℚ
  weight : ℚ
  reasons : List String
  deriving DecidableEq, Repr

/-- RSI block (analysis.py:310-327); `if self.indicators.get('RSI'):`
makes an RSI of exactly 0.0 skip the whole block. -/
def rsiStep (ind : Indicators) (a : TrendAcc) : TrendAcc :=
  match ind.RSI with
  | none => a
  | some rsi =>
    if rsi = 0 then a
    else if rsi > 70 then ⟨a.score + 2, a.weight + 2, a.reasons ++ ["RSI überkauft"]⟩
    else if rsi > 50 then ⟨a.score + 1, a.weight + 1, a.reasons ++ ["RSI bullisch"]⟩
    else if rsi < 30 then ⟨a.score - 2, a.weight + 2, a.reasons ++ ["RSI überverkauft"]⟩
    else ⟨a.score - 1, a.weight + 1, a.reasons ++ ["RSI bearisch"]⟩

/-- MACD block (analysis.py:330-340); the histogram is checked with
`is not None`. -/
def macdStep (ind : Indicators) (a : TrendAcc) : TrendAcc :=
  match ind.MACD with
  | none => a
  | some m =>
    match m.histogram with
    | none => a
    | some h =>
      if h > 0 then ⟨a.score + 3/2, a.weight + 3/2, a.reasons ++ ["MACD positiv"]⟩
      else ⟨a.score - 3/2, a.weight + 3/2, a.reasons ++ ["MACD negativ"]⟩

/-- ADX block (analysis.py:343-356); weight is only added when both DI
values are truthy. -/
def adxStep (ind : Indicators) (a : TrendAcc) : TrendAcc :=
  match ind.ADX with
  | none => a
  | some x =>
    if truthy x.adx ∧ x.adx.getD 0 > 25 then
      if truthy x.di_plus ∧ truthy x.di_minus then
        if x.di_plus.getD 0 > x.di_minus.getD 0 then
          ⟨a.score + 2, a.weight + 2, a.reasons ++ ["ADX bullisch (DI+ > DI-)"]⟩
        else ⟨a.score - 2, a.weight + 2, a.reasons ++ ["ADX bearisch (DI- > DI+)"]⟩
      else a
    else if truthy x.adx then ⟨a.score, a.weight, a.reasons ++ ["ADX schwach"]⟩
    else a

/-- One EMA column of the moving-average block: updates
`(ma_score, ma_weight, ma_above, ma_below)`. -/
def maColStep (current : ℚ) (acc : ℚ × ℚ × ℕ × ℕ)
    (col : Option (List (Option ℚ))) : ℚ × ℚ × ℕ × ℕ :=
  match col with
  | none => acc
  | some c =>
    match lastCell c with
    | none => acc
    | some v =>
      if current > v then (acc.1 + 1, acc.2.1 + 1, acc.2.2.1 + 1, acc.2.2.2)
      else (acc.1 - 1, acc.2.1 + 1, acc.2.2.1, acc.2.2.2 + 1)

/-- Moving-average block (analysis.py:359-383): EMA 9/21/50/200 columns
compared against the last close; contributes only if at least one EMA
value is present and non-NaN. -/
def maStep (st : TAState) (a : TrendAcc) : TrendAcc :=
  match st.data with
  | none => a
  | some df =>
    if df.close = [] then a
    else
      let current := df.close.getLastD 0
      let r := [df.ema9, df.ema21, df.ema50, df.ema200].foldl (maColStep current) (0, 0, 0, 0)
      if r.2.1 > 0 then ⟨a.score + r.1, a.weight + r.2.1, a.reasons ++ ["EMAs"]⟩
      else a

/-- Bollinger block (analysis.py:386-395): weight 0.5 is added whenever
the %-position is present, score only in the outer bands. -/
def bbStep (ind : Indicators) (a : TrendAcc) : TrendAcc :=
  match ind.Bollinger with
  | none => a
  | some bb =>
    match bb.percent with
    | none => a
    | some p =>
      if p > 8/10 then ⟨a.score - 1/2, a.weight + 1/2, a.reasons ++ ["BB oben (Umkehr?)"]⟩
      else if p < 2/10 then ⟨a.score + 1/2, a.weight + 1/2, a.reasons ++ ["BB unten (Umkehr?)"]⟩
      else ⟨a.score, a.weight + 1/2, a.reasons⟩

/-- OBV block (analysis.py:398-407): gated on a truthy OBV snapshot and
the OBV column being present; weight 1 is added in every branch.  NaN
cells make both comparisons false (neither up nor down). -/
def obvStep (st : TAState) (a : TrendAcc) : TrendAcc :=
  if truthy st.indicators.OBV then
    match st.data with
    | none => a
    | some df =>
      match df.obvCol with
      | none => a
      | some col =>
        let cur := lastCell col
        let prev := if df.close.length > 5 then col.getD (col.length - 5) none else cur
        let upQ := match cur, prev with
          | some c, some p => decide (c > p * (102/100))
          | _, _ => false
        let downQ := match cur, prev with
          | some c, some p => decide (c < p * (98/100))
          | _, _ => false
        if upQ then ⟨a.score + 1, a.weight + 1, a.reasons ++ ["OBV steigend"]⟩
        else if downQ then ⟨a.score - 1, a.weight + 1, a.reasons ++ ["OBV fallend"]⟩
        else ⟨a.score, a.weight + 1, a.reasons⟩
  else a

/-- The accumulated `(trend_score, total_weight, reasons)` of
`calculate_trend_strength` over its six blocks, in source order. -/
def trendAcc (st : TAState) : TrendAcc :=
  obvStep st (bbStep st.indicators (maStep st (adxStep st.indicators
    (macdStep st.indicators (rsiStep st.indicators ⟨0, 0, []⟩)))))

/-- Spec-side clamp of `x` to `[lo, hi]`. -/
def clampTo (lo hi x : ℚ) : ℚ := if x < lo then lo else if hi < x then hi else x

/-- `TechnicalAnalysis.calculate_trend_strength`: early 0 for an empty
indicators dict; otherwise the block contributions, normalized as
`(score/weight)*50` and clamped via `min(100, max(-100, .))`, or 0 with
zero total weight.  The reasoning joins the first 4 reasons. -/
def calculate_trend_strength (st : TAState) : ℚ × String :=
  if st.indicators.isEmpty then (0, "Keine Indikatoren verfügbar")
  else
    let a := trendAcc st
    let final := if a.weight > 0 then min 100 (max (-100) (a.score / a.weight * 50)) else 0
    (final, if a.reasons.isEmpty then "Keine klaren Signale"
            else String.intercalate ", " (a.reasons.take 4))

/-! ## ScoreAggregator: `calculate_probabilities` (analysis.py:421-555) -/

/-- The vote counters `(bullish, bearish, neutral, total)`. -/
structure Votes where
  b : ℕ
  be : ℕ
  n : ℕ
  t : ℕ
  deriving DecidableEq, Repr

/-- RSI vote (analysis.py:434-442); an RSI of 0.0 is falsy and skips the
block including the total increment. -/
def rsiVote (ind : Indicators) (v : Votes) : Votes :=
  match ind.RSI with
  | none => v
  | some rsi =>
    if rsi = 0 then v
    else if rsi > 60 then ⟨v.b + 1, v.be, v.n, v.t + 1⟩
    else if rsi < 40 then ⟨v.b, v.be + 1, v.n, v.t + 1⟩
    else ⟨v.b, v.be, v.n + 1, v.t + 1⟩

/-- MACD vote (analysis.py:445-454); `if macd['histogram']:` — a `None`
or 0.0 histogram casts no vote, but `total_signals` is still
incremented. -/
def macdVote (ind : Indicators) (v : Votes) : Votes :=
  match ind.MACD with
  | none => v
  | some m =>
    let v1 := match m.histogram with
      | none => v
      | some h =>
        if h = 0 then v
        else if |h| < 1/1000 then ⟨v.b, v.be, v.n + 1, v.t⟩
        else if h > 0 then ⟨v.b + 1, v.be, v.n, v.t⟩
        else ⟨v.b, v.be + 1, v.n, v.t⟩
    ⟨v1.b, v1.be, v1.n, v1.t + 1⟩

/-- Stochastic vote (analysis.py:457-466); `if stoch['K']:` — a falsy %K
casts no vote but still counts towards the total. -/
def stochVote (ind : Indicators) (v : Votes) : Votes :=
  match ind.Stochastic with
  | none => v
  | some s =>
    let v1 := match s.K with
      | none => v
      | some k =>
        if k = 0 then v
        else if k > 70 then ⟨v.b + 1, v.be, v.n, v.t⟩
        else if k < 30 then ⟨v.b, v.be + 1, v.n, v.t⟩
        else ⟨v.b, v.be, v.n + 1, v.t⟩
    ⟨v1.b, v1.be, v1.n, v1.t + 1⟩

/-- Bollinger vote (analysis.py:469-478); same falsy-percent quirk. -/
def bbVote (ind : Indicators) (v : Votes) : Votes :=
  match ind.Bollinger with
  | none => v
  | some bb =>
    let v1 := match bb.percent with
      | none => v
      | some p =>
        if p = 0 then v
        else if p > 8/10 then ⟨v.b + 1, v.be, v.n, v.t⟩
        else if p < 2/10 then ⟨v.b, v.be + 1, v.n, v.t⟩
        else ⟨v.b, v.be, v.n + 1, v.t⟩
    ⟨v1.b, v1.be, v1.n, v1.t + 1⟩

/-- MFI vote (analysis.py:481-489). -/
def mfiVote (ind : Indicators) (v : Votes) : Votes :=
  match ind.MFI with
  | none => v
  | some m =>
    if m = 0 then v
    else if m > 60 then ⟨v.b + 1, v.be, v.n, v.t + 1⟩
    else if m < 40 then ⟨v.b, v.be + 1, v.n, v.t + 1⟩
    else ⟨v.b, v.be, v.n + 1, v.t + 1⟩

/-- One EMA column vote (analysis.py:492-507): relative deviation of the
last close from the EMA value; Python raises `ZeroDivisionError` if the
EMA value is exactly 0. -/
def emaVote (current : ℚ) (col : Option (List (Option ℚ))) (v : Votes) :
    Except PyErr Votes :=
  match col with
  | none => .ok v
  | some c =>
    match lastCell c with
    | none => .ok v
    | some m =>
      if m = 0 then .error .zeroDiv
      else
        let dp := (current - m) / m * 100
        if dp > 1 then .ok ⟨v.b + 1, v.be, v.n, v.t + 1⟩
        else if dp < -1 then .ok ⟨v.b, v.be + 1, v.n, v.t + 1⟩
        else .ok ⟨v.b, v.be, v.n + 1, v.t + 1⟩

/-- OBV vote (analysis.py:510-521): deviation of the last OBV from the
mean of the last 20 OBV cells (pandas `mean` skips NaN); a zero mean is
mapped to deviation 0; a NaN deviation falls into the neutral branch. -/
def obvVote (df : IndicatorFrame) (v : Votes) : Votes :=
  match df.obvCol with
  | none => v
  | some col =>
    let cur := lastCell col
    let vals := (col.drop (col.length - 20)).filterMap id
    let avg : Option ℚ := if vals.length = 0 then none else some (vals.sum / vals.length)
    let diff : Option ℚ :=
      match avg with
      | none => none
      | some a =>
        if a = 0 then some 0
        else match cur with
          | none => none
          | some c => some ((c - a) / a * 100)
    match diff with
    | some x =>
      if x > 5 then ⟨v.b + 1, v.be, v.n, v.t + 1⟩
      else if x < -5 then ⟨v.b, v.be + 1, v.n, v.t + 1⟩
      else ⟨v.b, v.be, v.n + 1, v.t + 1⟩
    | none => ⟨v.b, v.be, v.n + 1, v.t + 1⟩

/-- ADX vote (analysis.py:524-528): double-weighted neutral vote for a
truthy ADX below 20. -/
def adxVote (ind : Indicators) (v : Votes) : Votes :=
  match ind.ADX with
  | none => v
  | some x =>
    if truthy x.adx ∧ x.adx.getD 0 < 20 then ⟨v.b, v.be, v.n + 2, v.t + 2⟩
    else v

/-- The vote tally of `calculate_probabilities`, in source order; only
the EMA blocks can raise. -/
def calcVotes (st : TAState) (df : IndicatorFrame) : Except PyErr Votes :=
  let current := df.close.getLastD 0
  let v1 := mfiVote st.indicators (bbVote st.indicators (stochVote st.indicators
    (macdVote st.indicators (rsiVote st.indicators ⟨0, 0, 0, 0⟩))))
  match emaVote current df.ema50 v1 with
  | .error e => .error e
  | .ok v2 =>
    match emaVote current df.ema200 v2 with
    | .error e => .error e
    | .ok v3 => .ok (adxVote st.indicators (obvVote df v3))

/-- The dict returned by `calculate_probabilities`. -/
structure ProbResult where
  bullish_probability : ℚ
  bearish_probability : ℚ
  neutral_probability : ℚ
  bullish_signals : ℕ
  bearish_signals : ℕ
  neutral_signals : ℕ
  total_signals : ℕ
  deriving DecidableEq, Repr

/-- `TechnicalAnalysis.calculate_probabilities`: `None` for missing/empty
data or an empty indicators dict; otherwise vote-share percentages,
renormalized by their sum when it differs from 100 — which is a Python
`ZeroDivisionError` when that sum is 0 — and rounded to 2 digits. -/
def calculate_probabilities (st : TAState) : Except PyErr (Option ProbResult) :=
  match st.data with
  | none => .ok none
  | some df =>
    if df.close = [] then .ok none
    else if st.indicators.isEmpty then .ok none
    else
      match calcVotes st df with
      | .error e => .error e
      | .ok v =>
        if v.t > 0 then
          let bp := (v.b : ℚ) / v.t * 100
          let bep := (v.be : ℚ) / v.t * 100
          let np2 := (v.n : ℚ) / v.t * 100
          let tp := bp + bep + np2
          if tp = 100 then
            .ok (some ⟨pyRound2 bp, pyRound2 bep, pyRound2 np2, v.b, v.be, v.n, v.t⟩)
          else if tp = 0 then .error .zeroDiv
          else
            .ok (some ⟨pyRound2 (bp / tp * 100), pyRound2 (bep / tp * 100),
              pyRound2 (np2 / tp * 100), v.b, v.be, v.n, v.t⟩)
        else
          .ok (some ⟨3333/100, 3333/100, 3334/100, v.b, v.be, v.n, v.t⟩)

/-! ## ScoreAggregator: `get_market_sentiment` (analysis.py:646-694) -/

/-- `TechnicalAnalysis.get_market_sentiment`: signal-bias adjustment
`score += (bull − bear)/total * 20` when votes exist, neutral override
on the neutral-vote share together with the adjusted |score| < 15, then
the fixed thresholds.  When `calculate_probabilities` returns `None`,
line 671 reads the then-unbound local `neutral_signals` — a Python
`NameError`. -/
def get_market_sentiment (st : TAState) : Except PyErr (String × ℚ × String) :=
  let ts0 := calculate_trend_strength st
  match calculate_probabilities st with
  | .error e => .error e
  | .ok none => .error .nameErr
  | .ok (some p) =>
    let adjust := p.total_signals > 0
    let ts := if adjust
      then ts0.1 + ((p.bullish_signals : ℚ) - (p.bearish_signals : ℚ)) / (p.total_signals : ℚ) * 20
      else ts0.1
    let reasoning := if adjust then ts0.2 ++ " | Signale" else ts0.2
    let sm : String × String :=
      if (p.neutral_signals : ℚ) > (p.total_signals : ℚ) * (6/10) ∧ |ts| < 15 then
        ("Neutral ➡️", "Hohe Neutralität, Konsolidierung")
      else if ts ≥ 25 then ("Sehr Bullisch 🚀", "Starke Aufwärtssignale")
      else if ts ≥ 10 then ("Bullisch 📈", "Positive Tendenz")
      else if ts ≥ -10 then ("Neutral ➡️", "Ausgeglichener Markt")
      else if ts ≥ -25 then ("Bearisch 📉", "Negative Tendenz")
      else ("Sehr Bearisch 🔻", "Starke Abwärtssignale")
    .ok (sm.1, ts, sm.2 ++ ": " ++ reasoning)

/-! ## Invariants of the trend accumulator -/

/-- Every block adds a score delta bounded by the weight delta, so the
running score always sits inside `±weight`. -/
def TrendAccOK (a : TrendAcc) : Prop := -a.weight ≤ a.score ∧ a.score ≤ a.weight

theorem rsiStep_ok (ind : Indicators) (a : TrendAcc) (h : TrendAccOK a) :
    TrendAccOK (rsiStep ind a) := by
  obtain ⟨h1, h2⟩ := h
  unfold TrendAccOK rsiStep
  split
  · exact ⟨h1, h2⟩
  · split_ifs <;> refine ⟨?_, ?_⟩ <;> dsimp only <;> linarith

theorem macdStep_ok (ind : Indicators) (a : TrendAcc) (h : TrendAccOK a) :
    TrendAccOK (macdStep ind a) := by
  obtain ⟨h1, h2⟩ := h
  unfold TrendAccOK macdStep
  split
  · exact ⟨h1, h2⟩
  · split
    · exact ⟨h1, h2⟩
    · split_ifs <;> refine ⟨?_, ?_⟩ <;> dsimp only <;> linarith

theorem adxStep_ok (ind : Indicators) (a : TrendAcc) (h : TrendAccOK a) :
    TrendAccOK (adxStep ind a) := by
  obtain ⟨h1, h2⟩ := h
  unfold TrendAccOK adxStep
  split
  · exact ⟨h1, h2⟩
  · split_ifs <;> refine ⟨?_, ?_⟩ <;> dsimp only <;> linarith

theorem maColStep_ok (current : ℚ) (acc : ℚ × ℚ × ℕ × ℕ)
    (col : Option (List (Option ℚ)))
    (h : -acc.2.1 ≤ acc.1 ∧ acc.1 ≤ acc.2.1) :
    -(maColStep current acc col).2.1 ≤ (maColStep current acc col).1 ∧
      (maColStep current acc col).1 ≤ (maColStep current acc col).2.1 := by
  obtain ⟨h1, h2⟩ := h
  unfold maColStep
  split
  · exact ⟨h1, h2⟩
  · split
    · exact ⟨h1, h2⟩
    · split_ifs <;> refine ⟨?_, ?_⟩ <;> dsimp only <;> linarith

theorem maFold_ok (cols : List (Option (List (Option ℚ)))) (current : ℚ)
    (acc : ℚ × ℚ × ℕ × ℕ)
    (h : -acc.2.1 ≤ acc.1 ∧ acc.1 ≤ acc.2.1) :
    -(cols.foldl (maColStep current) acc).2.1 ≤ (cols.foldl (maColStep current) acc).1 ∧
      (cols.foldl (maColStep current) acc).1 ≤ (cols.foldl (maColStep current) acc).2.1 := by
  induction cols generalizing acc with
  | nil => exact h
  | cons c cs ih =>
    simp only [List.foldl_cons]
    exact ih (maColStep current acc c) (maColStep_ok current acc c h)

theorem maStep_ok (st : TAState) (a : TrendAcc) (h : TrendAccOK a) :
    TrendAccOK (maStep st a) := by
  obtain ⟨h1, h2⟩ := h
  unfold TrendAccOK maStep
  split
  · exact ⟨h1, h2⟩
  · rename_i df heq
    split
    · exact ⟨h1, h2⟩
    · have hf := maFold_ok [df.ema9, df.ema21, df.ema50, df.ema200]
        (df.close.getLastD 0) (0, 0, 0, 0) (by norm_num)
      dsimp only
      split
      · refine ⟨?_, ?_⟩ <;> dsimp only <;> linarith [hf.1, hf.2]
      · exact ⟨h1, h2⟩

theorem bbStep_ok (ind : Indicators) (a : TrendAcc) (h : TrendAccOK a) :
    TrendAccOK (bbStep ind a) := by
  obtain ⟨h1, h2⟩ := h
  unfold TrendAccOK bbStep
  split
  · exact ⟨h1, h2⟩
  · split
    · exact ⟨h1, h2⟩
    · split_ifs <;> refine ⟨?_, ?_⟩ <;> dsimp only <;> linarith

theorem obvStep_ok (st : TAState) (a : TrendAcc) (h : TrendAccOK a) :
    TrendAccOK (obvStep st a) := by
  obtain ⟨h1, h2⟩ := h
  unfold TrendAccOK obvStep
  split
  · split
    · exact ⟨h1, h2⟩
    · split
      · exact ⟨h1, h2⟩
      · dsimp only
        split_ifs <;> refine ⟨?_, ?_⟩ <;> dsimp only <;> linarith
  · exact ⟨h1, h2⟩

theorem trendAcc_ok (st : TAState) : TrendAccOK (trendAcc st) := by
  unfold trendAcc
  exact obvStep_ok _ _ (bbStep_ok _ _ (maStep_ok _ _ (adxStep_ok _ _
    (macdStep_ok _ _ (rsiStep_ok _ _ ⟨by norm_num, by norm_num⟩)))))

/-- The pre-adjustment trend strength never leaves `[-50, 50]`: every
block's |score delta| is bounded by its weight delta, so the normalized
`(score/weight)*50` is already inside the clamp. -/
theorem trend_strength_abs_le (st : TAState) :
    |(calculate_trend_strength st).1| ≤ 50 := by
  unfold calculate_trend_strength
  split
  · simp
  · dsimp only
    split
    · rename_i hw
      obtain ⟨h1, h2⟩ := trendAcc_ok st
      have hs : |(trendAcc st).score| ≤ (trendAcc st).weight := abs_le.mpr ⟨h1, h2⟩
      have hx : |(trendAcc st).score / (trendAcc st).weight * 50| ≤ 50 := by
        rw [abs_mul, abs_div, abs_of_pos hw]
        have hdiv : |(trendAcc st).score| / (trendAcc st).weight ≤ 1 :=
          (div_le_one hw).mpr hs
        have h50 : |(50:ℚ)| = 50 := by norm_num
        rw [h50]
        nlinarith [abs_nonneg (trendAcc st).score]
      rw [abs_le] at hx
      have hmax : max (-100) ((trendAcc st).score / (trendAcc st).weight * 50)
          = (trendAcc st).score / (trendAcc st).weight * 50 :=
        max_eq_right (by linarith [hx.1])
      rw [hmax]
      have hmin : min 100 ((trendAcc st).score / (trendAcc st).weight * 50)
          = (trendAcc st).score / (trendAcc st).weight * 50 :=
        min_eq_right (by linarith [hx.2])
      rw [hmin, abs_le]
      exact ⟨by linarith [hx.1], hx.2⟩
    · simp

theorem min_max_eq_clampTo (lo hi x : ℚ) (h : lo ≤ hi) :
    min hi (max lo x) = clampTo lo hi x := by
  unfold clampTo
  split_ifs with h1 h2
  · rw [max_eq_left h1.le, min_eq_right h]
  · rw [max_eq_right (not_lt.mp h1), min_eq_left h2.le]
  · rw [max_eq_right (not_lt.mp h1), min_eq_right (not_lt.mp h2)]

/-- C5: `calculate_trend_strength` returns the normalized score
`(trend_score/total_weight)*50` clamped to `[-100,100]` when the
accumulated total weight is positive, and exactly 0 when the total
weight is zero — including the early return when no indicators are
available at all. -/
theorem c5_trend_strength_normalization (st : TAState) :
    (calculate_trend_strength st).1 =
      if st.indicators.isEmpty then 0
      else if (trendAcc st).weight > 0 then
        clampTo (-100) 100 ((trendAcc st).score / (trendAcc st).weight * 50)
      else 0 := by
  unfold calculate_trend_strength
  split
  · rfl
  · dsimp only
    split
    · exact min_max_eq_clampTo (-100) 100 _ (by norm_num)
    · rfl

/-- C6 counterexample: an RSI snapshot of exactly 0.0 — which is `< 30`,
so the claim demands a −2 contribution with weight 2 — contributes
nothing at all: `if self.indicators.get('RSI'):` treats 0.0 as falsy.
With RSI as the only indicator the whole trend strength is 0 instead of
the claimed `(-2/2)*50 = -50`. -/
theorem c6_counterexample :
    (0:ℚ) < 30 ∧
    rsiStep ⟨some 0, none, none, none, none, none, none, false⟩ ⟨0, 0, []⟩ = ⟨0, 0, []⟩ ∧
    (calculate_trend_strength ⟨⟨some 0, none, none, none, none, none, none, false⟩, none⟩).1
      = 0 ∧
    (0:ℚ) ≠ (-2)/2 * 50 := by
  refine ⟨by norm_num, by with_unfolding_all decide, by with_unfolding_all decide, by norm_num⟩

/-- The RSI contribution (score delta, weight delta) demanded by C6. -/
def rsiDeltaClaim (rsi : ℚ) : ℚ × ℚ :=
  if rsi > 70 then (2, 2)
  else if rsi > 50 then (1, 1)
  else if rsi < 30 then (-2, 2)
  else (-1, 1)

/-- C6 amended: an available *nonzero* RSI contributes +2/weight 2 above
70, +1/weight 1 in the (50,70] band, −2/weight 2 below 30, −1/weight 1
in the [30,50] band, and the weight always equals the magnitude of the
contribution; an RSI of exactly 0.0 is skipped by the truthiness
guard (see the counterexample). -/
theorem c6_rsi_contribution (ind : Indicators) (a : TrendAcc) (rsi : ℚ)
    (hind : ind.RSI = some rsi) (hnz : rsi ≠ 0) :
    (rsiStep ind a).score = a.score + (rsiDeltaClaim rsi).1 ∧
    (rsiStep ind a).weight = a.weight + (rsiDeltaClaim rsi).2 ∧
    (rsiDeltaClaim rsi).2 = |(rsiDeltaClaim rsi).1| := by
  unfold rsiStep rsiDeltaClaim
  rw [hind]
  simp only [if_neg hnz]
  split_ifs <;> refine ⟨by dsimp only; try ring, by dsimp only; try ring, by norm_num⟩

/-- C6 witness: RSI 80 contributes +2 with weight 2. -/
theorem c6_witness :
    (rsiStep ⟨some 80, none, none, none, none, none, none, false⟩ ⟨0, 0, []⟩).score
        = 0 + (rsiDeltaClaim 80).1 ∧
    (rsiStep ⟨some 80, none, none, none, none, none, none, false⟩ ⟨0, 0, []⟩).weight
        = 0 + (rsiDeltaClaim 80).2 ∧
    (rsiDeltaClaim 80).2 = |(rsiDeltaClaim 80).1| :=
  c6_rsi_contribution ⟨some 80, none, none, none, none, none, none, false⟩
    ⟨0, 0, []⟩ 80 rfl (by norm_num)

/-! ## Invariants of the vote tally -/

/-- Each block casts at most one vote per total-signal increment. -/
def VotesOK (v : Votes) : Prop := v.b + v.be + v.n ≤ v.t

theorem rsiVote_ok (ind : Indicators) (v : Votes) (h : VotesOK v) :
    VotesOK (rsiVote ind v) := by
  unfold VotesOK rsiVote at *
  split
  · exact h
  · split_ifs <;> first | omega | (dsimp only; omega)

theorem macdVote_ok (ind : Indicators) (v : Votes) (h : VotesOK v) :
    VotesOK (macdVote ind v) := by
  unfold VotesOK macdVote at *
  split
  · exact h
  · split
    · dsimp only; omega
    · split_ifs <;> first | omega | (dsimp only; omega)

theorem stochVote_ok (ind : Indicators) (v : Votes) (h : VotesOK v) :
    VotesOK (stochVote ind v) := by
  unfold VotesOK stochVote at *
  split
  · exact h
  · split
    · dsimp only; omega
    · split_ifs <;> first | omega | (dsimp only; omega)

theorem bbVote_ok (ind : Indicators) (v : Votes) (h : VotesOK v) :
    VotesOK (bbVote ind v) := by
  unfold VotesOK bbVote at *
  split
  · exact h
  · split
    · dsimp only; omega
    · split_ifs <;> first | omega | (dsimp only; omega)

theorem mfiVote_ok (ind : Indicators) (v : Votes) (h : VotesOK v) :
    VotesOK (mfiVote ind v) := by
  unfold VotesOK mfiVote at *
  split
  · exact h
  · split_ifs <;> first | omega | (dsimp only; omega)

theorem emaVote_ok (current : ℚ) (col : Option (List (Option ℚ)))
    (v v2 : Votes) (h : VotesOK v) (he : emaVote current col v = .ok v2) :
    VotesOK v2 := by
  unfold VotesOK at *
  unfold emaVote at he
  split at he
  · cases he; exact h
  · split at he
    · cases he; exact h
    · dsimp only at he
      split at he
      · cases he
      · split at he
        · cases he; dsimp only; omega
        · split at he
          · cases he; dsimp only; omega
          · cases he; dsimp only; omega

theorem obvVote_ok (df : IndicatorFrame) (v : Votes) (h : VotesOK v) :
    VotesOK (obvVote df v) := by
  unfold VotesOK obvVote at *
  split
  · exact h
  · dsimp only
    split
    · split_ifs <;> first | omega | (dsimp only; omega)
    · dsimp only; omega

theorem adxVote_ok (ind : Indicators) (v : Votes) (h : VotesOK v) :
    VotesOK (adxVote ind v) := by
  unfold VotesOK adxVote at *
  split
  · exact h
  · split_ifs <;> first | omega | (dsimp only; omega)

theorem calcVotes_ok (st : TAState) (df : IndicatorFrame) (v : Votes)
    (h : calcVotes st df = .ok v) : VotesOK v := by
  unfold calcVotes at h
  dsimp only at h
  split at h
  · cases h
  · rename_i v2 hv2
    split at h
    · cases h
    · rename_i v3 hv3
      cases h
      have h1 : VotesOK (mfiVote st.indicators (bbVote st.indicators
          (stochVote st.indicators (macdVote st.indicators
            (rsiVote st.indicators ⟨0, 0, 0, 0⟩))))) :=
        mfiVote_ok _ _ (bbVote_ok _ _ (stochVote_ok _ _ (macdVote_ok _ _
          (rsiVote_ok _ _ (by exact Nat.le_refl 0)))))
      have h2 := emaVote_ok _ _ _ _ h1 hv2
      have h3 := emaVote_ok _ _ _ _ h2 hv3
      exact adxVote_ok _ _ (obvVote_ok _ _ h3)

/-- Three values summing to 100 still sum to 100 within 0.01 after
rounding each to 2 digits: the individual errors are ≤ 1/200 and the
rounded sum is a multiple of 1/100. -/
theorem round3_sum_close (x y z : ℚ) (h : x + y + z = 100) :
    |pyRound2 x + pyRound2 y + pyRound2 z - 100| ≤ 1/100 := by
  have hx := pyRound2_abs_sub_le x
  have hy := pyRound2_abs_sub_le y
  have hz := pyRound2_abs_sub_le z
  set k : ℤ := pyRoundInt (x * 100) + pyRoundInt (y * 100) + pyRoundInt (z * 100) with hk
  have hsum : pyRound2 x + pyRound2 y + pyRound2 z = (k : ℚ) / 100 := by
    rw [hk]
    unfold pyRound2
    push_cast
    ring
  have hb : |(k : ℚ) / 100 - 100| ≤ 3/200 := by
    have : (k : ℚ) / 100 - 100
        = (pyRound2 x - x) + (pyRound2 y - y) + (pyRound2 z - z) := by
      rw [← hsum]; linarith
    rw [this]
    calc |(pyRound2 x - x) + (pyRound2 y - y) + (pyRound2 z - z)|
        ≤ |(pyRound2 x - x) + (pyRound2 y - y)| + |pyRound2 z - z| := abs_add _ _
      _ ≤ |pyRound2 x - x| + |pyRound2 y - y| + |pyRound2 z - z| := by
          have := abs_add (pyRound2 x - x) (pyRound2 y - y)
          linarith
      _ ≤ 3/200 := by linarith
  have hkq : |(k : ℚ) - 10000| ≤ 150 := by
    have h1 : |(k : ℚ) / 100 - 100| * 100 ≤ (3/200) * 100 := by
      have h100 : (0:ℚ) ≤ 100 := by norm_num
      exact mul_le_mul_of_nonneg_right hb h100
    have h2 : |(k : ℚ) - 10000| = |(k : ℚ) / 100 - 100| * 100 := by
      rw [← abs_of_nonneg (show (0:ℚ) ≤ 100 by norm_num), ← abs_mul]
      congr 1
      field_simp
      norm_num
    rw [h2]
    linarith
  have hki : |k - 10000| ≤ 150 := by
    have : ((|k - 10000| : ℤ) : ℚ) ≤ 150 := by
      rw [Int.cast_abs]
      push_cast
      exact hkq
    exact_mod_cast this
  -- a multiple of 1/100 within 3/200 of 100 is within 1/100 of it
  have hki2 : |k - 10000| ≤ 1 := by
    by_contra hc
    push_neg at hc
    have h2le : (2 : ℤ) ≤ |k - 10000| := hc
    have : ((2:ℤ) : ℚ) ≤ ((|k - 10000| : ℤ) : ℚ) := by exact_mod_cast h2le
    rw [Int.cast_abs] at this
    push_cast at this
    have habs : |(k:ℚ) - 10000| ≤ 3/2 := by
      have h2 : |(k : ℚ) - 10000| = |(k : ℚ) / 100 - 100| * 100 := by
        rw [← abs_of_nonneg (show (0:ℚ) ≤ 100 by norm_num), ← abs_mul]
        congr 1
        field_simp
        norm_num
      rw [h2]
      linarith
    linarith
  rw [hsum]
  have : |(k:ℚ) - 10000| ≤ 1 := by
    have : ((|k - 10000| : ℤ) : ℚ) ≤ 1 := by exact_mod_cast hki2
    rw [Int.cast_abs] at this
    push_cast at this
    exact this
  have h2 : |(k : ℚ) / 100 - 100| = |(k : ℚ) - 10000| / 100 := by
    rw [← abs_of_nonneg (show (0:ℚ) ≤ 100 by norm_num), ← abs_div]
    congr 1
    field_simp
    ring
  rw [h2]
  linarith

/-- C2 counterexample: with an indicator state whose only signal source
is a MACD snapshot with histogram exactly 0.0 (falsy, so it casts no
vote but still counts towards `total_signals`), all three vote counts
are 0 while `total_signals = 1`; the renormalization `(prob/total_prob)*100`
then divides by `total_prob = 0` and the function raises
`ZeroDivisionError` instead of returning probabilities. -/
theorem c2_counterexample :
    calculate_probabilities
      ⟨⟨none, some ⟨none, none, some 0⟩, none, none, none, none, none, false⟩,
        some ⟨[1], none, none, none, none, none⟩⟩ = .error PyErr.zeroDiv := by
  with_unfolding_all rfl

/-- C2 amended: whenever `calculate_probabilities` returns a probability
dict at all (it raises `ZeroDivisionError` when signals are counted but
none casts a vote), the three probabilities sum to 100.00 within 0.01. -/
theorem c2_probabilities_sum (st : TAState) (p : ProbResult)
    (h : calculate_probabilities st = .ok (some p)) :
    |p.bullish_probability + p.bearish_probability + p.neutral_probability - 100|
      ≤ 1/100 := by
  unfold calculate_probabilities at h
  split at h
  · simp at h
  · split_ifs at h
    · simp at h
    · simp at h
    · split at h
      · simp at h
      · rename_i v hv
        dsimp only at h
        split_ifs at h with ht htp htp0
        · -- vote shares already sum to 100
          simp only [Except.ok.injEq, Option.some.injEq] at h
          cases h
          dsimp only
          exact round3_sum_close _ _ _ htp
        · -- renormalized shares
          simp only [Except.ok.injEq, Option.some.injEq] at h
          cases h
          dsimp only
          apply round3_sum_close
          set tp := (v.b : ℚ) / v.t * 100 + (v.be : ℚ) / v.t * 100 + (v.n : ℚ) / v.t * 100 with htpdef
          have hring : (v.b : ℚ) / v.t * 100 / tp * 100 + (v.be : ℚ) / v.t * 100 / tp * 100
              + (v.n : ℚ) / v.t * 100 / tp * 100
              = ((v.b : ℚ) / v.t * 100 + (v.be : ℚ) / v.t * 100 + (v.n : ℚ) / v.t * 100)
                  / tp * 100 := by
            ring
          rw [hring, ← htpdef, div_self htp0]
          norm_num
        · -- `total_signals = 0`: the fixed 33.33/33.33/33.34 split
          simp only [Except.ok.injEq, Option.some.injEq] at h
          cases h
          dsimp only
          norm_num

/-- C2 witness: a single bullish RSI vote yields 100/0/0. -/
theorem c2_witness :
    |(100:ℚ) + 0 + 0 - 100| ≤ 1/100 :=
  c2_probabilities_sum
    ⟨⟨some 65, none, none, none, none, none, none, false⟩,
      some ⟨[1], none, none, none, none, none⟩⟩
    ⟨100, 0, 0, 1, 0, 0, 1⟩ (by with_unfolding_all rfl)

/-- The counts returned by `calculate_probabilities` respect the
one-vote-per-signal discipline. -/
theorem calculate_probabilities_counts (st : TAState) (p : ProbResult)
    (h : calculate_probabilities st = .ok (some p)) :
    p.bullish_signals + p.bearish_signals ≤ p.total_signals := by
  unfold calculate_probabilities at h
  split at h
  · simp at h
  · split_ifs at h
    · simp at h
    · simp at h
    · split at h
      · simp at h
      · rename_i v hv
        have hok := calcVotes_ok st _ v hv
        unfold VotesOK at hok
        dsimp only at h
        split_ifs at h <;>
          (simp only [Except.ok.injEq, Option.some.injEq] at h; cases h; dsimp only; omega)

/-- C3: whenever `get_market_sentiment` returns, the trend-strength value
it reports (after the signal-bias adjustment) lies in `[-100, 100]`: the
pre-adjustment score is confined to `[-50, 50]` and the bias to
`[-20, 20]`. -/
theorem c3_trend_strength_in_range (st : TAState) (r : String × ℚ × String)
    (h : get_market_sentiment st = .ok r) :
    -100 ≤ r.2.1 ∧ r.2.1 ≤ 100 := by
  unfold get_market_sentiment at h
  split at h
  · simp at h
  · simp at h
  · rename_i p hp
    dsimp only at h
    simp only [Except.ok.injEq] at h
    subst h
    dsimp only
    have hbase := trend_strength_abs_le st
    rw [abs_le] at hbase
    split_ifs with hadj
    · have hcounts := calculate_probabilities_counts st p hp
      have htq : (0:ℚ) < (p.total_signals : ℚ) := by exact_mod_cast hadj
      have hbq : (p.bullish_signals : ℚ) ≤ (p.total_signals : ℚ) := by
        exact_mod_cast Nat.le_trans (Nat.le_add_right _ _) hcounts
      have hbeq : (p.bearish_signals : ℚ) ≤ (p.total_signals : ℚ) := by
        exact_mod_cast Nat.le_trans (Nat.le_add_left _ _) hcounts
      have hb0 : (0:ℚ) ≤ (p.bullish_signals : ℚ) := by positivity
      have hbe0 : (0:ℚ) ≤ (p.bearish_signals : ℚ) := by positivity
      have hup : ((p.bullish_signals : ℚ) - (p.bearish_signals : ℚ)) / (p.total_signals : ℚ) ≤ 1 := by
        rw [div_le_one htq]
        linarith
      have hdown : -1 ≤ ((p.bullish_signals : ℚ) - (p.bearish_signals : ℚ)) / (p.total_signals : ℚ) := by
        rw [le_div_iff₀ htq]
        linarith
      constructor <;> nlinarith [hbase.1, hbase.2]
    · exact ⟨by linarith [hbase.1], by linarith [hbase.2]⟩

/-- C3 witness: a single bullish RSI signal gives trend strength
`50 + 20 = 70`, inside the interval. -/
theorem c3_witness :
    -100 ≤ (70:ℚ) ∧ (70:ℚ) ≤ 100 :=
  c3_trend_strength_in_range
    ⟨⟨some 65, none, none, none, none, none, none, false⟩,
      some ⟨[1], none, none, none, none, none⟩⟩
    ("Sehr Bullisch 🚀", 70, "Starke Aufwärtssignale: RSI bullisch | Signale")
    (by with_unfolding_all rfl)

/-! ## LLMClient: `_prepare_data_for_json` (llm_client.py:82-106) -/

/-- A Python machine-float value: finite, NaN, or ±Infinity. -/
inductive FVal where
  | num (q : ℚ)
  | nan
  | inf
  | ninf
  deriving DecidableEq, Repr

/-- The Python data passed across the text-generation boundary.
`npFloat` is a numpy float64 scalar (an instance of Python `float`),
`pyFloat` a plain Python float.  A pandas DataFrame is modelled by its
column names and float rows; timestamps carry their string rendering. -/
inductive PyData where
  | npFloat (v : FVal)
  | pyFloat (v : FVal)
  | npInt (n : ℤ)
  | pyInt (n : ℤ)
  | pyStr (s : String)
  | pyBool (b : Bool)
  | pyNone
  | timestamp (s : String)
  | ndarray (elems : List PyData)
  | series (entries : List (String × PyData))
  | frame (cols : List String) (rows : List (List FVal))
  | pyDict (entries : List (String × PyData))
  | pyList (elems : List PyData)
  deriving Repr

def FVal.isFinite : FVal → Bool
  | .num _ => true
  | _ => false

/-- `isinstance(x, float)` — Python floats and numpy float64. -/
def PyData.isFloatInst : PyData → Bool
  | .npFloat _ => true
  | .pyFloat _ => true
  | _ => false

/-- `np.isnan(x) or np.isinf(x)` on a float instance. -/
def PyData.nonFinite : PyData → Bool
  | .npFloat v => !v.isFinite
  | .pyFloat v => !v.isFinite
  | _ => false

/-- `x is None`. -/
def PyData.isNone : PyData → Bool
  | .pyNone => true
  | _ => false

mutual

/-- `LLMClient._prepare_data_for_json`: numpy scalars are scrubbed to
`None`/cast to Python float; numpy-array elements that are non-finite
float instances are dropped (not nulled); Series become dicts and
dicts/lists recurse, dropping `None` values; DataFrames replace ±inf by
NaN and drop NaN rows; timestamps stringify; the final `pd.isna` check
maps a plain-float NaN (and `None`) to `None` — but a plain Python
float ±Infinity reaches the terminal `else` and is returned unchanged. -/
def prepare_data_for_json : PyData → PyData
  | .npFloat v =>
    match v with
    | .num q => .pyFloat (.num q)
    | _ => .pyNone
  | .npInt n => .pyFloat (.num (n : ℚ))
  | .ndarray es => .pyList (prepArray es)
  | .series es => .pyDict (prepEntries es)
  | .frame cols rows =>
    .pyList ((rows.filter (fun r => r.all FVal.isFinite)).map
      (fun r => .pyDict (cols.zip (r.map (fun v => PyData.pyFloat v)))))
  | .pyDict es => .pyDict (prepEntries es)
  | .pyList es => .pyList (prepItems es)
  | .timestamp s => .pyStr s
  | .pyFloat v =>
    match v with
    | .nan => .pyNone
    | w => .pyFloat w
  | .pyNone => .pyNone
  | .pyInt n => .pyInt n
  | .pyStr s => .pyStr s
  | .pyBool b => .pyBool b

/-- The ndarray comprehension with its non-finite-float filter. -/
def prepArray : List PyData → List PyData
  | [] => []
  | x :: xs =>
    if x.isFloatInst && x.nonFinite then prepArray xs
    else prepare_data_for_json x :: prepArray xs

/-- The Series/dict comprehension with its `v is not None` filter. -/
def prepEntries : List (String × PyData) → List (String × PyData)
  | [] => []
  | (k, v) :: es =>
    if v.isNone then prepEntries es
    else (k, prepare_data_for_json v) :: prepEntries es

/-- The list comprehension with its `item is not None` filter. -/
def prepItems : List PyData → List PyData
  | [] => []
  | x :: xs =>
    if x.isNone then prepItems xs
    else prepare_data_for_json x :: prepItems xs

end

mutual

/-- No plain Python-float Infinity occurs anywhere in the value. -/
def NoPyInf : PyData → Bool
  | .pyFloat v => match v with | .inf => false | .ninf => false | _ => true
  | .ndarray es => noPyInfList es
  | .series es => noPyInfEntries es
  | .pyDict es => noPyInfEntries es
  | .pyList es => noPyInfList es
  | _ => true

def noPyInfList : List PyData → Bool
  | [] => true
  | x :: xs => NoPyInf x && noPyInfList xs

def noPyInfEntries : List (String × PyData) → Bool
  | [] => true
  | (_, v) :: es => NoPyInf v && noPyInfEntries es

end

mutual

/-- Every float occurring in the value is finite. -/
def AllFinite : PyData → Bool
  | .npFloat v => v.isFinite
  | .pyFloat v => v.isFinite
  | .ndarray es => allFiniteList es
  | .series es => allFiniteEntries es
  | .frame _ rows => rows.all (fun r => r.all FVal.isFinite)
  | .pyDict es => allFiniteEntries es
  | .pyList es => allFiniteList es
  | _ => true

def allFiniteList : List PyData → Bool
  | [] => true
  | x :: xs => AllFinite x && allFiniteList xs

def allFiniteEntries : List (String × PyData) → Bool
  | [] => true
  | (_, v) :: es => AllFinite v && allFiniteEntries es

end

theorem allFiniteList_iff (l : List PyData) :
    allFiniteList l = true ↔ ∀ x ∈ l, AllFinite x = true := by
  induction l with
  | nil => simp [allFiniteList]
  | cons x xs ih => simp [allFiniteList, Bool.and_eq_true, ih]

theorem frameDict_fin (cols : List String) (r : List FVal)
    (hr : r.all FVal.isFinite = true) :
    AllFinite (PyData.pyDict (cols.zip (r.map (fun v => PyData.pyFloat v)))) = true := by
  show allFiniteEntries _ = true
  induction cols generalizing r with
  | nil => rfl
  | cons c cs ih =>
    cases r with
    | nil => rfl
    | cons v vs =>
      simp only [List.all_cons, Bool.and_eq_true] at hr
      show (AllFinite (PyData.pyFloat v) && allFiniteEntries _) = true
      rw [Bool.and_eq_true]
      exact ⟨hr.1, ih vs hr.2⟩

mutual

theorem prep_fin : ∀ (d : PyData), NoPyInf d = true →
    AllFinite (prepare_data_for_json d) = true
  | .npFloat v, _ => by cases v <;> rfl
  | .pyFloat v, h => by
    cases v with
    | num q => rfl
    | nan => rfl
    | inf => simp [NoPyInf] at h
    | ninf => simp [NoPyInf] at h
  | .npInt n, _ => rfl
  | .pyInt n, _ => rfl
  | .pyStr s, _ => rfl
  | .pyBool b, _ => rfl
  | .pyNone, _ => rfl
  | .timestamp s, _ => rfl
  | .ndarray es, h => by
    have h2 : noPyInfList es = true := by simpa [NoPyInf] using h
    simpa [prepare_data_for_json, AllFinite] using prepArray_fin es h2
  | .series es, h => by
    have h2 : noPyInfEntries es = true := by simpa [NoPyInf] using h
    simpa [prepare_data_for_json, AllFinite] using prepEntries_fin es h2
  | .frame cols rows, _ => by
    simp only [prepare_data_for_json, AllFinite]
    rw [allFiniteList_iff]
    intro x hx
    rcases List.mem_map.mp hx with ⟨r, hr, rfl⟩
    exact frameDict_fin cols r (List.mem_filter.mp hr).2
  | .pyDict es, h => by
    have h2 : noPyInfEntries es = true := by simpa [NoPyInf] using h
    simpa [prepare_data_for_json, AllFinite] using prepEntries_fin es h2
  | .pyList es, h => by
    have h2 : noPyInfList es = true := by simpa [NoPyInf] using h
    simpa [prepare_data_for_json, AllFinite] using prepItems_fin es h2

theorem prepArray_fin : ∀ (es : List PyData), noPyInfList es = true →
    allFiniteList (prepArray es) = true
  | [], _ => rfl
  | x :: xs, h => by
    rw [noPyInfList, Bool.and_eq_true] at h
    by_cases hc : (x.isFloatInst && x.nonFinite) = true
    · rw [prepArray, if_pos hc]
      exact prepArray_fin xs h.2
    · rw [prepArray, if_neg hc, allFiniteList, Bool.and_eq_true]
      exact ⟨prep_fin x h.1, prepArray_fin xs h.2⟩

theorem prepEntries_fin : ∀ (es : List (String × PyData)), noPyInfEntries es = true →
    allFiniteEntries (prepEntries es) = true
  | [], _ => rfl
  | (k, v) :: es, h => by
    rw [noPyInfEntries, Bool.and_eq_true] at h
    by_cases hv : v.isNone = true
    · rw [prepEntries, if_pos hv]
      exact prepEntries_fin es h.2
    · rw [prepEntries, if_neg hv, allFiniteEntries, Bool.and_eq_true]
      exact ⟨prep_fin v h.1, prepEntries_fin es h.2⟩

theorem prepItems_fin : ∀ (es : List PyData), noPyInfList es = true →
    allFiniteList (prepItems es) = true
  | [], _ => rfl
  | x :: xs, h => by
    rw [noPyInfList, Bool.and_eq_true] at h
    by_cases hx : x.isNone = true
    · rw [prepItems, if_pos hx]
      exact prepItems_fin xs h.2
    · rw [prepItems, if_neg hx, allFiniteList, Bool.and_eq_true]
      exact ⟨prep_fin x h.1, prepItems_fin xs h.2⟩

end

/-- C9 counterexample: a plain Python `float('inf')` scalar is returned
by `_prepare_data_for_json` unchanged — it is not a numpy scalar, not a
container, and `pd.isna(inf)` is `False`, so it reaches the terminal
`else` — contradicting "any NaN or Infinity … is replaced by null". -/
theorem c9_counterexample :
    prepare_data_for_json (PyData.pyFloat FVal.inf) = PyData.pyFloat FVal.inf ∧
    PyData.pyFloat FVal.inf ≠ PyData.pyNone := by
  constructor
  · unfold prepare_data_for_json
    rfl
  · intro h
    cases h

/-- C9 amended: provided the input holds no plain Python-float Infinity,
every numeric value in the prepared snapshot is finite — numpy NaN/Inf
scalars and Python-float NaN become null, non-finite numpy-array
elements and NaN/Inf DataFrame rows are dropped. -/
theorem c9_output_all_finite (d : PyData) (h : NoPyInf d = true) :
    AllFinite (prepare_data_for_json d) = true :=
  prep_fin d h

/-- C9 witness: a dict holding a numpy NaN and an array with a numpy
Infinity is scrubbed to an all-finite snapshot. -/
theorem c9_witness :
    NoPyInf (PyData.pyDict [("a", PyData.npFloat FVal.nan),
      ("b", PyData.ndarray [PyData.pyFloat (FVal.num 1), PyData.npFloat FVal.inf])]) = true ∧
    AllFinite (prepare_data_for_json (PyData.pyDict [("a", PyData.npFloat FVal.nan),
      ("b", PyData.ndarray [PyData.pyFloat (FVal.num 1), PyData.npFloat FVal.inf])])) = true := by
  have hno : NoPyInf (PyData.pyDict [("a", PyData.npFloat FVal.nan),
      ("b", PyData.ndarray [PyData.pyFloat (FVal.num 1), PyData.npFloat FVal.inf])]) = true := by
    simp [NoPyInf, noPyInfEntries, noPyInfList]
  exact ⟨hno, c9_output_all_finite _ hno⟩

/-! ## PatternRecognizer: the pattern record (`_add_pattern`,
candlestick_patterns.py:98-108; the `date` field is the bar timestamp
and is omitted like all timestamps). -/

structure Pattern where
  pattern : String
  signal : String
  reliability : String
  description : String
  price : ℚ
  index : ℕ
  deriving DecidableEq, Repr

/-! ## Chart layer: primary-pattern selection (main.py:389-395,
advanced_charts.py:246-253) -/

/-- `reliability_order.get(p.get('reliability', 'Low'), 0)`. -/
def reliabilityRank (s : String) : ℕ :=
  if s = "Very High" then 4
  else if s = "High" then 3
  else if s = "Medium" then 2
  else if s = "Low" then 1
  else 0

/-- `pattern_groups[idx]`: the patterns at one index, in detection
order (the groups dict appends while iterating the hit list). -/
def patternsAt (ps : List Pattern) (idx : ℕ) : List Pattern :=
  ps.filter (fun p => p.index = idx)

/-- `patterns_at_idx.sort(key=reliability_order.get, reverse=True)`
followed by `patterns_at_idx[0]`: Python's sort is stable, so equal
ranks keep detection order. -/
def primaryPattern (ps : List Pattern) : Option Pattern :=
  (sortByLe (fun p q =>
    decide (reliabilityRank q.reliability ≤ reliabilityRank p.reliability)) ps).head?

/-- Spec-side reading of the overlap rule: the first element attaining
the maximal key (ties broken by detection order). -/
def firstMaxBy {α : Type} (key : α → ℕ) : List α → Option α
  | [] => none
  | x :: xs => some (xs.foldl (fun b q => if key b < key q then q else b) x)

theorem length_sortByLe {α : Type} (le : α → α → Bool) (l : List α) :
    (sortByLe le l).length = l.length := by
  induction l with
  | nil => rfl
  | cons x xs ih =>
    simp only [sortByLe]
    rw [length_insertLe, ih]
    rfl

theorem foldl_firstMax_eq {α : Type} (key : α → ℕ) (xs : List α) (x : α) :
    xs.foldl (fun b q => if key b < key q then q else b) x =
      match firstMaxBy key xs with
      | none => x
      | some m => if key x < key m then m else x := by
  induction xs generalizing x with
  | nil => rfl
  | cons y ys ih =>
    simp only [List.foldl_cons, firstMaxBy]
    rw [ih (if key x < key y then y else x), ih y]
    cases hm : firstMaxBy key ys with
    | none => rfl
    | some m =>
      dsimp only
      split_ifs <;> first | rfl | (exfalso; omega)

theorem head?_sortByLe_desc {α : Type} (key : α → ℕ) (l : List α) :
    (sortByLe (fun p q => decide (key q ≤ key p)) l).head? = firstMaxBy key l := by
  induction l with
  | nil => rfl
  | cons x xs ih =>
    simp only [sortByLe, firstMaxBy]
    cases hs : sortByLe (fun p q => decide (key q ≤ key p)) xs with
    | nil =>
      have hxs : xs = [] := by
        have hlen := length_sortByLe (fun p q => decide (key q ≤ key p)) xs
        rw [hs] at hlen
        exact List.length_eq_zero.mp hlen.symm
      subst hxs
      rfl
    | cons hd t =>
      have hfm : firstMaxBy key xs = some hd := by
        rw [← ih, hs]
        rfl
      rw [foldl_firstMax_eq, hfm]
      by_cases hc : key hd ≤ key x
      · rw [insertLe, if_pos (by simpa using hc)]
        dsimp only
        rw [if_neg (not_lt.mpr hc)]
        rfl
      · rw [insertLe, if_neg (by simpa using hc)]
        dsimp only
        rw [if_pos (lt_of_not_le hc)]
        cases t with
        | nil => rfl
        | cons t1 ts => rfl

theorem key_le_foldl_max {α : Type} (key : α → ℕ) (xs : List α) (x : α) :
    key x ≤ key (xs.foldl (fun b q => if key b < key q then q else b) x) := by
  induction xs generalizing x with
  | nil => exact Nat.le_refl _
  | cons y ys ih =>
    simp only [List.foldl_cons]
    refine Nat.le_trans ?_ (ih (if key x < key y then y else x))
    split_ifs with h
    · exact Nat.le_of_lt h
    · exact Nat.le_refl _

theorem mem_key_le_foldl_max {α : Type} (key : α → ℕ) (xs : List α) (x q : α)
    (hq : q ∈ xs) :
    key q ≤ key (xs.foldl (fun b q => if key b < key q then q else b) x) := by
  induction xs generalizing x with
  | nil => cases hq
  | cons y ys ih =>
    simp only [List.foldl_cons]
    rcases List.mem_cons.mp hq with h | h
    · subst h
      refine Nat.le_trans ?_ (key_le_foldl_max key ys (if key x < key q then q else x))
      split_ifs with hxy
      · exact Nat.le_refl _
      · exact Nat.le_of_not_lt hxy
    · exact ih (if key x < key y then y else x) h

theorem firstMaxBy_is_max {α : Type} (key : α → ℕ) (l : List α) (m : α)
    (h : firstMaxBy key l = some m) : ∀ q ∈ l, key q ≤ key m := by
  cases l with
  | nil => cases h
  | cons x xs =>
    simp only [firstMaxBy, Option.some.injEq] at h
    subst h
    intro q hq
    rcases List.mem_cons.mp hq with h | h
    · subst h
      exact key_le_foldl_max key xs q
    · exact mem_key_le_foldl_max key xs x q h

/-- C4: the primary pattern for an index is the stable descending sort's
head, which equals the first group element of maximal reliability rank
(Very High > High > Medium > Low, ties broken by detection order); every
group member's rank is bounded by the primary's; and for a "High" and a
"Medium" pattern at the same index the "High" one is chosen. -/
theorem c4_primary_pattern_selection :
    (∀ (ps : List Pattern) (idx : ℕ),
      primaryPattern (patternsAt ps idx)
        = firstMaxBy (fun p => reliabilityRank p.reliability) (patternsAt ps idx)) ∧
    (∀ (ps : List Pattern) (idx : ℕ) (q m : Pattern),
      q ∈ patternsAt ps idx → primaryPattern (patternsAt ps idx) = some m →
      reliabilityRank q.reliability ≤ reliabilityRank m.reliability) ∧
    primaryPattern
        [⟨"Doji", "Indecision", "Medium", "d", 1, 7⟩,
         ⟨"Hammer", "Bullish Reversal", "High", "h", 1, 7⟩]
      = some ⟨"Hammer", "Bullish Reversal", "High", "h", 1, 7⟩ := by
  have hmain : ∀ (l : List Pattern),
      primaryPattern l = firstMaxBy (fun p => reliabilityRank p.reliability) l := by
    intro l
    unfold primaryPattern
    exact head?_sortByLe_desc (fun p : Pattern => reliabilityRank p.reliability) l
  refine ⟨fun ps idx => hmain _, ?_, by decide⟩
  intro ps idx q m hq hm
  rw [hmain] at hm
  exact firstMaxBy_is_max _ _ m hm q hq

/-- C4 witness: the Medium/High group of the claim instantiated. -/
theorem c4_witness :
    reliabilityRank "Medium" ≤ reliabilityRank "High" :=
  c4_primary_pattern_selection.2.1
    [⟨"Doji", "Indecision", "Medium", "d", 1, 7⟩,
     ⟨"Hammer", "Bullish Reversal", "High", "h", 1, 7⟩] 7
    ⟨"Doji", "Indecision", "Medium", "d", 1, 7⟩
    ⟨"Hammer", "Bullish Reversal", "High", "h", 1, 7⟩
    (by decide) (by decide)

/-! ## PatternRecognizer: `detect_all_patterns`
(candlestick_patterns.py:25-61) -/

/-- `self.data['Open'].iloc[i]` (detectors only touch valid indices). -/
def openAt (d : List Candle) (i : ℕ) : ℚ := ((d.get? i).map Candle.op).getD 0

def highAt (d : List Candle) (i : ℕ) : ℚ := ((d.get? i).map Candle.hi).getD 0

def lowAt (d : List Candle) (i : ℕ) : ℚ := ((d.get? i).map Candle.lo).getD 0

def closeAt (d : List Candle) (i : ℕ) : ℚ := ((d.get? i).map Candle.cl).getD 0

/-- `_calculate_body_height`. -/
def bodyHeight (d : List Candle) (i : ℕ) : ℚ := |closeAt d i - openAt d i|

/-- `_calculate_upper_shadow`. -/
def upperShadow (d : List Candle) (i : ℕ) : ℚ :=
  highAt d i - max (closeAt d i) (openAt d i)

/-- `_calculate_lower_shadow`. -/
def lowerShadow (d : List Candle) (i : ℕ) : ℚ :=
  min (closeAt d i) (openAt d i) - lowAt d i

/-- `_is_bullish_candle`. -/
def isBullish (d : List Candle) (i : ℕ) : Prop := closeAt d i > openAt d i

/-- `_is_bearish_candle`. -/
def isBearish (d : List Candle) (i : ℕ) : Prop := closeAt d i < openAt d i

instance (d : List Candle) (i : ℕ) : Decidable (isBullish d i) := by
  unfold isBullish; infer_instance

instance (d : List Candle) (i : ℕ) : Decidable (isBearish d i) := by
  unfold isBearish; infer_instance

/-- `_get_trend` (candlestick_patterns.py:83-96); every call site uses
the default lookback of 5. -/
def getTrend (d : List Candle) (i lookback : ℕ) : String :=
  if i < lookback then "unknown"
  else
    let sp := closeAt d (i - lookback)
    let ep := closeAt d (i - 1)
    if ep > sp * (102/100) then "uptrend"
    else if ep < sp * (98/100) then "downtrend"
    else "sideways"

/-- `_add_pattern` (minus the omitted timestamp). -/
def mkHit (d : List Candle) (i : ℕ) (name sig rel desc : String) : Pattern :=
  ⟨name, sig, rel, desc, closeAt d i, i⟩

def dojiAt (d : List Candle) (i : ℕ) : Option Pattern :=
  if highAt d i - lowAt d i > 0 ∧ bodyHeight d i / (highAt d i - lowAt d i) < 1/10 then
    some (mkHit d i "Doji"
      (if getTrend d i 5 = "uptrend" then "Bearish Reversal"
       else if getTrend d i 5 = "downtrend" then "Bullish Reversal"
       else "Indecision")
      "Medium" "Unentschlossenheit im Markt, mögliche Trendwende")
  else none

def detect_doji (d : List Candle) : List Pattern :=
  (List.range' 0 d.length).filterMap (dojiAt d)

def hammerAt (d : List Candle) (i : ℕ) : Option Pattern :=
  if lowerShadow d i > bodyHeight d i * 2 ∧ upperShadow d i < bodyHeight d i * (3/10) ∧
      getTrend d i 5 = "downtrend" then
    some (mkHit d i "Hammer" "Bullish Reversal" "High"
      "Starkes bullisches Umkehrsignal nach Abwärtstrend")
  else none

def detect_hammer (d : List Candle) : List Pattern :=
  (List.range' 1 (d.length - 1)).filterMap (hammerAt d)

def hangingManAt (d : List Candle) (i : ℕ) : Option Pattern :=
  if lowerShadow d i > bodyHeight d i * 2 ∧ upperShadow d i < bodyHeight d i * (3/10) ∧
      getTrend d i 5 = "uptrend" then
    some (mkHit d i "Hanging Man" "Bearish Reversal" "Medium"
      "Mögliches bearisches Umkehrsignal nach Aufwärtstrend")
  else none

def detect_hanging_man (d : List Candle) : List Pattern :=
  (List.range' 1 (d.length - 1)).filterMap (hangingManAt d)

def shootingStarAt (d : List Candle) (i : ℕ) : Option Pattern :=
  if upperShadow d i > bodyHeight d i * 2 ∧ lowerShadow d i < bodyHeight d i * (3/10) ∧
      getTrend d i 5 = "uptrend" then
    some (mkHit d i "Shooting Star" "Bearish Reversal" "High"
      "Starkes bearisches Umkehrsignal nach Aufwärtstrend")
  else none

def detect_shooting_star (d : List Candle) : List Pattern :=
  (List.range' 1 (d.length - 1)).filterMap (shootingStarAt d)

def invertedHammerAt (d : List Candle) (i : ℕ) : Option Pattern :=
  if upperShadow d i > bodyHeight d i * 2 ∧ lowerShadow d i < bodyHeight d i * (3/10) ∧
      getTrend d i 5 = "downtrend" then
    some (mkHit d i "Inverted Hammer" "Bullish Reversal" "Medium"
      "Mögliches bullisches Umkehrsignal nach Abwärtstrend")
  else none

def detect_inverted_hammer (d : List Candle) : List Pattern :=
  (List.range' 1 (d.length - 1)).filterMap (invertedHammerAt d)

def spinningTopAt (d : List Candle) (i : ℕ) : Option Pattern :=
  if highAt d i - lowAt d i > 0 ∧ bodyHeight d i / (highAt d i - lowAt d i) < 3/10 ∧
      upperShadow d i > bodyHeight d i ∧ lowerShadow d i > bodyHeight d i then
    some (mkHit d i "Spinning Top" "Neutral" "Low"
      "Unentschlossenheit, mögliche Konsolidierung")
  else none

def detect_spinning_top (d : List Candle) : List Pattern :=
  (List.range' 0 d.length).filterMap (spinningTopAt d)

def marubozuAt (d : List Candle) (i : ℕ) : Option Pattern :=
  if highAt d i - lowAt d i > 0 ∧ bodyHeight d i / (highAt d i - lowAt d i) > 95/100 then
    some (if isBullish d i then
      mkHit d i "Bullish Marubozu" "Strong Bullish" "High"
        "Sehr starkes bullisches Signal, Käufer kontrollieren"
    else
      mkHit d i "Bearish Marubozu" "Strong Bearish" "High"
        "Sehr starkes bearisches Signal, Verkäufer kontrollieren")
  else none

def detect_marubozu (d : List Candle) : List Pattern :=
  (List.range' 0 d.length).filterMap (marubozuAt d)

def longLeggedDojiAt (d : List Candle) (i : ℕ) : Option Pattern :=
  if highAt d i - lowAt d i > 0 ∧ bodyHeight d i / (highAt d i - lowAt d i) < 5/100 ∧
      upperShadow d i > bodyHeight d i * 5 ∧ lowerShadow d i > bodyHeight d i * 5 then
    some (mkHit d i "Long-Legged Doji" "High Indecision" "Medium"
      "Extreme Unentschlossenheit, wichtiger Wendepunkt möglich")
  else none

def detect_long_legged_doji (d : List Candle) : List Pattern :=
  (List.range' 0 d.length).filterMap (longLeggedDojiAt d)

def dragonflyDojiAt (d : List Candle) (i : ℕ) : Option Pattern :=
  if highAt d i - lowAt d i > 0 ∧ bodyHeight d i / (highAt d i - lowAt d i) < 5/100 ∧
      lowerShadow d i > (highAt d i - lowAt d i) * (7/10) ∧
      upperShadow d i < (highAt d i - lowAt d i) * (1/10) then
    some (if getTrend d i 5 = "downtrend" then
      mkHit d i "Dragonfly Doji" "Bullish Reversal" "High"
        "Starkes bullisches Umkehrsignal am Boden"
    else
      mkHit d i "Dragonfly Doji" "Support Found" "Medium" "Unterstützung gefunden")
  else none

def detect_dragonfly_doji (d : List Candle) : List Pattern :=
  (List.range' 0 d.length).filterMap (dragonflyDojiAt d)

def gravestoneDojiAt (d : List Candle) (i : ℕ) : Option Pattern :=
  if highAt d i - lowAt d i > 0 ∧ bodyHeight d i / (highAt d i - lowAt d i) < 5/100 ∧
      upperShadow d i > (highAt d i - lowAt d i) * (7/10) ∧
      lowerShadow d i < (highAt d i - lowAt d i) * (1/10) then
    some (if getTrend d i 5 = "uptrend" then
      mkHit d i "Gravestone Doji" "Bearish Reversal" "High"
        "Starkes bearisches Umkehrsignal am Top"
    else
      mkHit d i "Gravestone Doji" "Resistance Found" "Medium" "Widerstand gefunden")
  else none

def detect_gravestone_doji (d : List Candle) : List Pattern :=
  (List.range' 0 d.length).filterMap (gravestoneDojiAt d)

def engulfingAt (d : List Candle) (i : ℕ) : Option Pattern :=
  if isBearish d (i-1) ∧ isBullish d i ∧ openAt d i < closeAt d (i-1) ∧
      closeAt d i > openAt d (i-1) ∧ getTrend d i 5 = "downtrend" then
    some (mkHit d i "Bullish Engulfing" "Bullish Reversal" "High"
      "Starkes bullisches Umkehrmuster")
  else if isBullish d (i-1) ∧ isBearish d i ∧ openAt d i > closeAt d (i-1) ∧
      closeAt d i < openAt d (i-1) ∧ getTrend d i 5 = "uptrend" then
    some (mkHit d i "Bearish Engulfing" "Bearish Reversal" "High"
      "Starkes bearisches Umkehrmuster")
  else none

def detect_engulfing (d : List Candle) : List Pattern :=
  (List.range' 1 (d.length - 1)).filterMap (engulfingAt d)

def haramiAt (d : List Candle) (i : ℕ) : Option Pattern :=
  if isBearish d (i-1) ∧ isBullish d i ∧ openAt d i > closeAt d (i-1) ∧
      closeAt d i < openAt d (i-1) ∧ getTrend d i 5 = "downtrend" then
    some (mkHit d i "Bullish Harami" "Bullish Reversal" "Medium"
      "Mögliche bullische Umkehr")
  else if isBullish d (i-1) ∧ isBearish d i ∧ openAt d i < closeAt d (i-1) ∧
      closeAt d i > openAt d (i-1) ∧ getTrend d i 5 = "uptrend" then
    some (mkHit d i "Bearish Harami" "Bearish Reversal" "Medium"
      "Mögliche bearische Umkehr")
  else none

def detect_harami (d : List Candle) : List Pattern :=
  (List.range' 1 (d.length - 1)).filterMap (haramiAt d)

def piercingLineAt (d : List Candle) (i : ℕ) : Option Pattern :=
  if isBearish d (i-1) ∧ isBullish d i ∧ openAt d i < lowAt d (i-1) ∧
      closeAt d i > (openAt d (i-1) + closeAt d (i-1)) / 2 ∧
      closeAt d i < openAt d (i-1) ∧ getTrend d i 5 = "downtrend" then
    some (mkHit d i "Piercing Line" "Bullish Reversal" "High"
      "Starkes bullisches Umkehrsignal")
  else none

def detect_piercing_line (d : List Candle) : List Pattern :=
  (List.range' 1 (d.length - 1)).filterMap (piercingLineAt d)

def darkCloudCoverAt (d : List Candle) (i : ℕ) : Option Pattern :=
  if isBullish d (i-1) ∧ isBearish d i ∧ openAt d i > highAt d (i-1) ∧
      closeAt d i < (openAt d (i-1) + closeAt d (i-1)) / 2 ∧
      closeAt d i > openAt d (i-1) ∧ getTrend d i 5 = "uptrend" then
    some (mkHit d i "Dark Cloud Cover" "Bearish Reversal" "High"
      "Starkes bearisches Umkehrsignal")
  else none

def detect_dark_cloud_cover (d : List Candle) : List Pattern :=
  (List.range' 1 (d.length - 1)).filterMap (darkCloudCoverAt d)

def tweezerAt (d : List Candle) (i : ℕ) : Option Pattern :=
  if |highAt d i - highAt d (i-1)| < highAt d i * (1/1000) ∧
      getTrend d i 5 = "uptrend" then
    some (mkHit d i "Tweezer Top" "Bearish Reversal" "Medium"
      "Doppelter Widerstand, mögliche Umkehr")
  else if |lowAt d i - lowAt d (i-1)| < lowAt d i * (1/1000) ∧
      getTrend d i 5 = "downtrend" then
    some (mkHit d i "Tweezer Bottom" "Bullish Reversal" "Medium"
      "Doppelte Unterstützung, mögliche Umkehr")
  else none

def detect_tweezer_tops_bottoms (d : List Candle) : List Pattern :=
  (List.range' 1 (d.length - 1)).filterMap (tweezerAt d)

def morningStarAt (d : List Candle) (i : ℕ) : Option Pattern :=
  if isBearish d (i-2) ∧ bodyHeight d (i-1) < bodyHeight d (i-2) * (3/10) ∧
      isBullish d i ∧ closeAt d i > (openAt d (i-2) + closeAt d (i-2)) / 2 ∧
      getTrend d (i-2) 5 = "downtrend" then
    some (mkHit d i "Morning Star" "Bullish Reversal" "Very High"
      "Sehr starkes bullisches Umkehrmuster")
  else none

def detect_morning_star (d : List Candle) : List Pattern :=
  (List.range' 2 (d.length - 2)).filterMap (morningStarAt d)

def eveningStarAt (d : List Candle) (i : ℕ) : Option Pattern :=
  if isBullish d (i-2) ∧ bodyHeight d (i-1) < bodyHeight d (i-2) * (3/10) ∧
      isBearish d i ∧ closeAt d i < (openAt d (i-2) + closeAt d (i-2)) / 2 ∧
      getTrend d (i-2) 5 = "uptrend" then
    some (mkHit d i "Evening Star" "Bearish Reversal" "Very High"
      "Sehr starkes bearisches Umkehrmuster")
  else none

def detect_evening_star (d : List Candle) : List Pattern :=
  (List.range' 2 (d.length - 2)).filterMap (eveningStarAt d)

def threeWhiteSoldiersAt (d : List Candle) (i : ℕ) : Option Pattern :=
  if isBullish d (i-2) ∧ isBullish d (i-1) ∧ isBullish d i ∧
      closeAt d (i-1) > closeAt d (i-2) ∧ closeAt d i > closeAt d (i-1) ∧
      openAt d (i-1) > openAt d (i-2) ∧ openAt d i > openAt d (i-1) then
    some (mkHit d i "Three White Soldiers" "Strong Bullish" "Very High"
      "Sehr starker Aufwärtstrend")
  else none

def detect_three_white_soldiers (d : List Candle) : List Pattern :=
  (List.range' 2 (d.length - 2)).filterMap (threeWhiteSoldiersAt d)

def threeBlackCrowsAt (d : List Candle) (i : ℕ) : Option Pattern :=
  if isBearish d (i-2) ∧ isBearish d (i-1) ∧ isBearish d i ∧
      closeAt d (i-1) < closeAt d (i-2) ∧ closeAt d i < closeAt d (i-1) ∧
      openAt d (i-1) < openAt d (i-2) ∧ openAt d i < openAt d (i-1) then
    some (mkHit d i "Three Black Crows" "Strong Bearish" "Very High"
      "Sehr starker Abwärtstrend")
  else none

def detect_three_black_crows (d : List Candle) : List Pattern :=
  (List.range' 2 (d.length - 2)).filterMap (threeBlackCrowsAt d)

def threeInsideAt (d : List Candle) (i : ℕ) : Option Pattern :=
  if isBearish d (i-2) ∧ isBullish d (i-1) ∧ closeAt d (i-1) < openAt d (i-2) ∧
      openAt d (i-1) > closeAt d (i-2) ∧ isBullish d i ∧
      closeAt d i > closeAt d (i-1) then
    some (mkHit d i "Three Inside Up" "Bullish Reversal" "High"
      "Bestätigte bullische Umkehr")
  else if isBullish d (i-2) ∧ isBearish d (i-1) ∧ closeAt d (i-1) > openAt d (i-2) ∧
      openAt d (i-1) < closeAt d (i-2) ∧ isBearish d i ∧
      closeAt d i < closeAt d (i-1) then
    some (mkHit d i "Three Inside Down" "Bearish Reversal" "High"
      "Bestätigte bearische Umkehr")
  else none

def detect_three_inside_up_down (d : List Candle) : List Pattern :=
  (List.range' 2 (d.length - 2)).filterMap (threeInsideAt d)

def threeOutsideAt (d : List Candle) (i : ℕ) : Option Pattern :=
  if isBearish d (i-2) ∧ isBullish d (i-1) ∧ openAt d (i-1) < closeAt d (i-2) ∧
      closeAt d (i-1) > openAt d (i-2) ∧ isBullish d i ∧
      closeAt d i > closeAt d (i-1) then
    some (mkHit d i "Three Outside Up" "Bullish Reversal" "High"
      "Starke bullische Umkehr mit Engulfing")
  else if isBullish d (i-2) ∧ isBearish d (i-1) ∧ openAt d (i-1) > closeAt d (i-2) ∧
      closeAt d (i-1) < openAt d (i-2) ∧ isBearish d i ∧
      closeAt d i < closeAt d (i-1) then
    some (mkHit d i "Three Outside Down" "Bearish Reversal" "High"
      "Starke bearische Umkehr mit Engulfing")
  else none

def detect_three_outside_up_down (d : List Candle) : List Pattern :=
  (List.range' 2 (d.length - 2)).filterMap (threeOutsideAt d)

def risingFallingAt (d : List Candle) (i : ℕ) : Option Pattern :=
  if isBullish d (i-4) ∧ bodyHeight d (i-4) > bodyHeight d (i-3) ∧
      bodyHeight d (i-4) > bodyHeight d (i-2) ∧ bodyHeight d (i-4) > bodyHeight d (i-1) ∧
      ((List.range' (i-3) 3).all fun j => decide (closeAt d j < highAt d (i-4) ∧
        closeAt d j > lowAt d (i-4))) ∧
      isBullish d i ∧ closeAt d i > closeAt d (i-4) then
    some (mkHit d i "Rising Three Methods" "Bullish Continuation" "High"
      "Bullischer Trend setzt sich fort")
  else if isBearish d (i-4) ∧ bodyHeight d (i-4) > bodyHeight d (i-3) ∧
      bodyHeight d (i-4) > bodyHeight d (i-2) ∧ bodyHeight d (i-4) > bodyHeight d (i-1) ∧
      ((List.range' (i-3) 3).all fun j => decide (closeAt d j > lowAt d (i-4) ∧
        closeAt d j < highAt d (i-4))) ∧
      isBearish d i ∧ closeAt d i < closeAt d (i-4) then
    some (mkHit d i "Falling Three Methods" "Bearish Continuation" "High"
      "Bearischer Trend setzt sich fort")
  else none

def detect_rising_falling_three_methods (d : List Candle) : List Pattern :=
  (List.range' 4 (d.length - 4)).filterMap (risingFallingAt d)

/-- `CandlestickPatterns.detect_all_patterns`: the detector families are
invoked in this fixed order, each appending its hits to `self.patterns`. -/
def detect_all_patterns (d : List Candle) : List Pattern :=
  detect_doji d ++ detect_hammer d ++ detect_hanging_man d ++
  detect_shooting_star d ++ detect_inverted_hammer d ++ detect_spinning_top d ++
  detect_marubozu d ++ detect_long_legged_doji d ++ detect_dragonfly_doji d ++
  detect_gravestone_doji d ++ detect_engulfing d ++ detect_harami d ++
  detect_piercing_line d ++ detect_dark_cloud_cover d ++
  detect_tweezer_tops_bottoms d ++ detect_morning_star d ++
  detect_evening_star d ++ detect_three_white_soldiers d ++
  detect_three_black_crows d ++ detect_three_inside_up_down d ++
  detect_three_outside_up_down d ++ detect_rising_falling_three_methods d

/-- `stats['recent_patterns'] = [p for p in self.patterns[-5:]]`
(candlestick_patterns.py:518): the last 5 *list elements*. -/
def recent_patterns (ps : List Pattern) : List Pattern := ps.drop (ps.length - 5)

theorem dojiAt_index (d : List Candle) : ∀ i p, dojiAt d i = some p → p.index = i := by
  intro i p h
  unfold dojiAt at h
  split at h
  · cases h; rfl
  · cases h

theorem hammerAt_index (d : List Candle) : ∀ i p, hammerAt d i = some p → p.index = i := by
  intro i p h
  unfold hammerAt at h
  split at h
  · cases h; rfl
  · cases h

theorem hangingManAt_index (d : List Candle) : ∀ i p, hangingManAt d i = some p → p.index = i := by
  intro i p h
  unfold hangingManAt at h
  split at h
  · cases h; rfl
  · cases h

theorem shootingStarAt_index (d : List Candle) : ∀ i p, shootingStarAt d i = some p → p.index = i := by
  intro i p h
  unfold shootingStarAt at h
  split at h
  · cases h; rfl
  · cases h

theorem invertedHammerAt_index (d : List Candle) : ∀ i p, invertedHammerAt d i = some p → p.index = i := by
  intro i p h
  unfold invertedHammerAt at h
  split at h
  · cases h; rfl
  · cases h

theorem spinningTopAt_index (d : List Candle) : ∀ i p, spinningTopAt d i = some p → p.index = i := by
  intro i p h
  unfold spinningTopAt at h
  split at h
  · cases h; rfl
  · cases h

theorem marubozuAt_index (d : List Candle) : ∀ i p, marubozuAt d i = some p → p.index = i := by
  intro i p h
  unfold marubozuAt at h
  split at h
  · cases h
    split <;> rfl
  · cases h

theorem longLeggedDojiAt_index (d : List Candle) : ∀ i p, longLeggedDojiAt d i = some p → p.index = i := by
  intro i p h
  unfold longLeggedDojiAt at h
  split at h
  · cases h; rfl
  · cases h

theorem dragonflyDojiAt_index (d : List Candle) : ∀ i p, dragonflyDojiAt d i = some p → p.index = i := by
  intro i p h
  unfold dragonflyDojiAt at h
  split at h
  · cases h
    split <;> rfl
  · cases h

theorem gravestoneDojiAt_index (d : List Candle) : ∀ i p, gravestoneDojiAt d i = some p → p.index = i := by
  intro i p h
  unfold gravestoneDojiAt at h
  split at h
  · cases h
    split <;> rfl
  · cases h

theorem engulfingAt_index (d : List Candle) : ∀ i p, engulfingAt d i = some p → p.index = i := by
  intro i p h
  unfold engulfingAt at h
  split at h
  · cases h; rfl
  · split at h
    · cases h; rfl
    · cases h

theorem haramiAt_index (d : List Candle) : ∀ i p, haramiAt d i = some p → p.index = i := by
  intro i p h
  unfold haramiAt at h
  split at h
  · cases h; rfl
  · split at h
    · cases h; rfl
    · cases h

theorem piercingLineAt_index (d : List Candle) : ∀ i p, piercingLineAt d i = some p → p.index = i := by
  intro i p h
  unfold piercingLineAt at h
  split at h
  · cases h; rfl
  · cases h

theorem darkCloudCoverAt_index (d : List Candle) : ∀ i p, darkCloudCoverAt d i = some p → p.index = i := by
  intro i p h
  unfold darkCloudCoverAt at h
  split at h
  · cases h; rfl
  · cases h

theorem tweezerAt_index (d : List Candle) : ∀ i p, tweezerAt d i = some p → p.index = i := by
  intro i p h
  unfold tweezerAt at h
  split at h
  · cases h; rfl
  · split at h
    · cases h; rfl
    · cases h

theorem morningStarAt_index (d : List Candle) : ∀ i p, morningStarAt d i = some p → p.index = i := by
  intro i p h
  unfold morningStarAt at h
  split at h
  · cases h; rfl
  · cases h

theorem eveningStarAt_index (d : List Candle) : ∀ i p, eveningStarAt d i = some p → p.index = i := by
  intro i p h
  unfold eveningStarAt at h
  split at h
  · cases h; rfl
  · cases h

theorem threeWhiteSoldiersAt_index (d : List Candle) : ∀ i p, threeWhiteSoldiersAt d i = some p → p.index = i := by
  intro i p h
  unfold threeWhiteSoldiersAt at h
  split at h
  · cases h; rfl
  · cases h

theorem threeBlackCrowsAt_index (d : List Candle) : ∀ i p, threeBlackCrowsAt d i = some p → p.index = i := by
  intro i p h
  unfold threeBlackCrowsAt at h
  split at h
  · cases h; rfl
  · cases h

theorem threeInsideAt_index (d : List Candle) : ∀ i p, threeInsideAt d i = some p → p.index = i := by
  intro i p h
  unfold threeInsideAt at h
  split at h
  · cases h; rfl
  · split at h
    · cases h; rfl
    · cases h

theorem threeOutsideAt_index (d : List Candle) : ∀ i p, threeOutsideAt d i = some p → p.index = i := by
  intro i p h
  unfold threeOutsideAt at h
  split at h
  · cases h; rfl
  · split at h
    · cases h; rfl
    · cases h

theorem risingFallingAt_index (d : List Candle) : ∀ i p, risingFallingAt d i = some p → p.index = i := by
  intro i p h
  unfold risingFallingAt at h
  split at h
  · cases h; rfl
  · split at h
    · cases h; rfl
    · cases h

/-- Hits harvested by an ascending index scan keep ascending indices. -/
theorem pairwise_index_filterMap (f : ℕ → Option Pattern)
    (hf : ∀ i p, f i = some p → p.index = i) (l : List ℕ)
    (hl : l.Pairwise (· < ·)) :
    (l.filterMap f).Pairwise (fun p q => p.index ≤ q.index) := by
  induction l with
  | nil => simp
  | cons a t ih =>
    rw [List.filterMap_cons]
    have ha := List.pairwise_cons.mp hl
    cases hfa : f a with
    | none => exact ih ha.2
    | some p =>
      refine List.Pairwise.cons ?_ (ih ha.2)
      intro q hq
      rcases List.mem_filterMap.mp hq with ⟨b, hb, hfb⟩
      rw [hf a p hfa, hf b q hfb]
      exact Nat.le_of_lt (ha.1 b hb)

/-- C10 witness data: eleven identical bullish marubozu bars followed by
one doji bar.  The doji families (detected first) fire at the last
index 11, the marubozu family (detected later) at indices 0..10. -/
def c10Data : List Candle :=
  [⟨10, 20, 10, 20, 1⟩, ⟨10, 20, 10, 20, 1⟩, ⟨10, 20, 10, 20, 1⟩,
   ⟨10, 20, 10, 20, 1⟩, ⟨10, 20, 10, 20, 1⟩, ⟨10, 20, 10, 20, 1⟩,
   ⟨10, 20, 10, 20, 1⟩, ⟨10, 20, 10, 20, 1⟩, ⟨10, 20, 10, 20, 1⟩,
   ⟨10, 20, 10, 20, 1⟩, ⟨10, 20, 10, 20, 1⟩, ⟨15, 16, 14, 15, 1⟩]

/-- C10: `detect_all_patterns` returns the hits grouped by pattern
family in the fixed detector-invocation order (Doji first, …,
Rising/Falling Three Methods last), each family in ascending index
order; the overall list is not index-sorted — on `c10Data` the Doji-family
hits at index 11 precede the marubozu hits at 0..10 — so the
`recent_patterns` field of `get_pattern_statistics` (the last 5 list
elements) misses a hit with the largest index. -/
theorem c10_detect_all_patterns_order :
    (∀ d : List Candle, detect_all_patterns d =
      detect_doji d ++ detect_hammer d ++ detect_hanging_man d ++
      detect_shooting_star d ++ detect_inverted_hammer d ++ detect_spinning_top d ++
      detect_marubozu d ++ detect_long_legged_doji d ++ detect_dragonfly_doji d ++
      detect_gravestone_doji d ++ detect_engulfing d ++ detect_harami d ++
      detect_piercing_line d ++ detect_dark_cloud_cover d ++
      detect_tweezer_tops_bottoms d ++ detect_morning_star d ++
      detect_evening_star d ++ detect_three_white_soldiers d ++
      detect_three_black_crows d ++ detect_three_inside_up_down d ++
      detect_three_outside_up_down d ++ detect_rising_falling_three_methods d) ∧
    (∀ d : List Candle,
      (detect_doji d).Pairwise (fun p q => p.index ≤ q.index) ∧
      (detect_hammer d).Pairwise (fun p q => p.index ≤ q.index) ∧
      (detect_hanging_man d).Pairwise (fun p q => p.index ≤ q.index) ∧
      (detect_shooting_star d).Pairwise (fun p q => p.index ≤ q.index) ∧
      (detect_inverted_hammer d).Pairwise (fun p q => p.index ≤ q.index) ∧
      (detect_spinning_top d).Pairwise (fun p q => p.index ≤ q.index) ∧
      (detect_marubozu d).Pairwise (fun p q => p.index ≤ q.index) ∧
      (detect_long_legged_doji d).Pairwise (fun p q => p.index ≤ q.index) ∧
      (detect_dragonfly_doji d).Pairwise (fun p q => p.index ≤ q.index) ∧
      (detect_gravestone_doji d).Pairwise (fun p q => p.index ≤ q.index) ∧
      (detect_engulfing d).Pairwise (fun p q => p.index ≤ q.index) ∧
      (detect_harami d).Pairwise (fun p q => p.index ≤ q.index) ∧
      (detect_piercing_line d).Pairwise (fun p q => p.index ≤ q.index) ∧
      (detect_dark_cloud_cover d).Pairwise (fun p q => p.index ≤ q.index) ∧
      (detect_tweezer_tops_bottoms d).Pairwise (fun p q => p.index ≤ q.index) ∧
      (detect_morning_star d).Pairwise (fun p q => p.index ≤ q.index) ∧
      (detect_evening_star d).Pairwise (fun p q => p.index ≤ q.index) ∧
      (detect_three_white_soldiers d).Pairwise (fun p q => p.index ≤ q.index) ∧
      (detect_three_black_crows d).Pairwise (fun p q => p.index ≤ q.index) ∧
      (detect_three_inside_up_down d).Pairwise (fun p q => p.index ≤ q.index) ∧
      (detect_three_outside_up_down d).Pairwise (fun p q => p.index ≤ q.index) ∧
      (detect_rising_falling_three_methods d).Pairwise (fun p q => p.index ≤ q.index)) ∧
    ¬ (detect_all_patterns c10Data).Pairwise (fun p q => p.index ≤ q.index) ∧
    (∃ p ∈ detect_all_patterns c10Data,
      ∃ q ∈ recent_patterns (detect_all_patterns c10Data),
        p ∉ recent_patterns (detect_all_patterns c10Data) ∧ q.index < p.index) := by
  refine ⟨fun d => rfl, fun d => ?_, by with_unfolding_all decide,
    by with_unfolding_all decide⟩
  exact ⟨pairwise_index_filterMap _ (dojiAt_index d) _ (List.pairwise_lt_range' _ _),
    pairwise_index_filterMap _ (hammerAt_index d) _ (List.pairwise_lt_range' _ _),
    pairwise_index_filterMap _ (hangingManAt_index d) _ (List.pairwise_lt_range' _ _),
    pairwise_index_filterMap _ (shootingStarAt_index d) _ (List.pairwise_lt_range' _ _),
    pairwise_index_filterMap _ (invertedHammerAt_index d) _ (List.pairwise_lt_range' _ _),
    pairwise_index_filterMap _ (spinningTopAt_index d) _ (List.pairwise_lt_range' _ _),
    pairwise_index_filterMap _ (marubozuAt_index d) _ (List.pairwise_lt_range' _ _),
    pairwise_index_filterMap _ (longLeggedDojiAt_index d) _ (List.pairwise_lt_range' _ _),
    pairwise_index_filterMap _ (dragonflyDojiAt_index d) _ (List.pairwise_lt_range' _ _),
    pairwise_index_filterMap _ (gravestoneDojiAt_index d) _ (List.pairwise_lt_range' _ _),
    pairwise_index_filterMap _ (engulfingAt_index d) _ (List.pairwise_lt_range' _ _),
    pairwise_index_filterMap _ (haramiAt_index d) _ (List.pairwise_lt_range' _ _),
    pairwise_index_filterMap _ (piercingLineAt_index d) _ (List.pairwise_lt_range' _ _),
    pairwise_index_filterMap _ (darkCloudCoverAt_index d) _ (List.pairwise_lt_range' _ _),
    pairwise_index_filterMap _ (tweezerAt_index d) _ (List.pairwise_lt_range' _ _),
    pairwise_index_filterMap _ (morningStarAt_index d) _ (List.pairwise_lt_range' _ _),
    pairwise_index_filterMap _ (eveningStarAt_index d) _ (List.pairwise_lt_range' _ _),
    pairwise_index_filterMap _ (threeWhiteSoldiersAt_index d) _ (List.pairwise_lt_range' _ _),
    pairwise_index_filterMap _ (threeBlackCrowsAt_index d) _ (List.pairwise_lt_range' _ _),
    pairwise_index_filterMap _ (threeInsideAt_index d) _ (List.pairwise_lt_range' _ _),
    pairwise_index_filterMap _ (threeOutsideAt_index d) _ (List.pairwise_lt_range' _ _),
    pairwise_index_filterMap _ (risingFallingAt_index d) _ (List.pairwise_lt_range' _ _)⟩

/-- C10 witness: the per-family ascending-index property instantiated on
the concrete series. -/
theorem c10_witness :
    (detect_doji c10Data).Pairwise (fun p q => p.index ≤ q.index) :=
  (c10_detect_all_patterns_order.2.1 c10Data).1
